import Mathlib

set_option linter.unusedVariables false

/-!
Shallow embedding of the greenlet coroutine runtime
(`src/tutorial-env/lib/python3.9/site-packages/greenlet/*.cpp`):
the switching protocol (`Greenlet::g_switch*`, `UserGreenlet::g_switch`,
`UserGreenlet::g_initialstub`, `UserGreenlet::inner_bootstrap`),
the stack bookkeeping (`StackState`), payload packaging
(`operator<<=(OwnedObject&, SwitchingArgs&)`), and parent assignment
(`UserGreenlet::parent`).

Pointers are modelled as `Nat` (0 plays the role of `nullptr`), possibly-NULL
`PyObject*` values (`OwnedObject`) as `Option PyObj`, and the collection of
greenlet objects as a function `GId → Greenlet` inside an explicit
environment `GEnv`.  Mutation becomes explicit state passing: each modelled
C++ member function takes and returns the environment.  A thrown C++
`PyErrOccurred` becomes an error value; since state changes are carried by
the returned environment, a function that raises before its first mutation
leaves the environment unchanged exactly as the source does.
-/

namespace GreenletSpec

/-- Python object values as needed by the switching protocol: `None`,
atoms, tuples and dicts.  An `Option PyObj` plays the role of an
`OwnedObject` (a possibly-NULL `PyObject*`). -/
inductive PyObj where
  | noneV
  | intV (n : Int)
  | strV (s : String)
  | tuple (xs : List PyObj)
  | dict (pairs : List (PyObj × PyObj))

/-- `PyDict_Size`: number of entries of a dict, `-1` on a non-dict. -/
def pyDictSize : PyObj → Int
  | PyObj.dict ps => ps.length
  | _ => -1

/-- `PySequence_Length` on a possibly-NULL object: length of a tuple,
`-1` otherwise (including NULL). -/
def pySequenceLength : Option PyObj → Int
  | some (PyObj.tuple xs) => xs.length
  | _ => -1

/-- `greenlet::SwitchingArgs` (greenlet_greenlet.hpp): the transient switch
payload.  Both fields NULL encodes a *throw* rather than a switch. -/
structure SwitchingArgs where
  args : Option PyObj := Option.none
  kwargs : Option PyObj := Option.none

/-- `SwitchingArgs::operator bool`: true when either member is set. -/
def SwitchingArgs.isSet (a : SwitchingArgs) : Bool :=
  a.args.isSome || a.kwargs.isSome

/-- `operator<<=(OwnedObject&, SwitchingArgs&)` (TGreenlet.cpp 355-383):
computes the value the receiver of a switch obtains and clears the source
`SwitchingArgs`.  Returns `(value, cleared source)`.  On every reachable
call `args` is a non-NULL tuple (green_switch always packs the positional
arguments into a tuple), so the `getD` default in the pack branch is never
hit there; it stands in for the source's undefined `PyTuple_Pack(2, NULL, kw)`. -/
def packageSwitchingArgs (rhs : SwitchingArgs) : Option PyObj × SwitchingArgs :=
  let args := rhs.args
  let kwargs := rhs.kwargs
  let lhs : Option PyObj :=
    match kwargs with
    | Option.none => args
    | some kw =>
      if pyDictSize kw = 0 then args
      else if pySequenceLength args = 0 then some kw
      else some (PyObj.tuple [args.getD PyObj.noneV, kw])
  (lhs, {})

/-- `greenlet::single_result` (greenlet_greenlet.hpp 748-759): unwraps a
1-tuple, leaves anything else alone. -/
def single_result : Option PyObj → Option PyObj
  | some (PyObj.tuple [x]) => some x
  | r => r

/-! ## StackState (TStackState.cpp)

Native stack addresses are `Nat`, with 0 standing for the null pointer.
`_stack_saved` is always equal to the length of the heap buffer
`stack_copy` in the source (`free_stack_copy` zeroes both together,
`copy_stack_to_heap_up_to` grows both together), so the model stores the
buffer and derives the count.  The `stack_prev` member is a raw pointer
into a chain of `StackState` objects; the chain is passed explicitly as a
`List StackState` to the operations that walk it, and the recomputed prev
link is returned as an `Option StackState`. -/

/-- The `(char*)-1` sentinel `stack_stop` of a main greenlet
(`StackState::make_main`, `StackState::main`). -/
def mainStackSentinel : Nat := 2 ^ 64 - 1

structure StackState where
  stack_start : Nat := 0
  stack_stop : Nat := 0
  stack_copy : List Nat := []
  deriving DecidableEq, Repr

/-- `_stack_saved`, derived from the heap buffer (see section comment). -/
def StackState.stack_saved (s : StackState) : Nat := s.stack_copy.length

/-- The default constructor `StackState()`: inactive, unstarted. -/
def StackState.initialS : StackState := {}

/-- `StackState::started`: `stack_stop != nullptr`. -/
def StackState.started (s : StackState) : Bool := s.stack_stop ≠ 0

/-- `StackState::main`: `stack_stop == (char*)-1`. -/
def StackState.mainS (s : StackState) : Bool := s.stack_stop = mainStackSentinel

/-- `StackState::active`: `_stack_start != nullptr`. -/
def StackState.active (s : StackState) : Bool := s.stack_start ≠ 0

/-- `StackState::set_active`: `_stack_start = (char*)1`. -/
def StackState.set_active (s : StackState) : StackState :=
  { s with stack_start := 1 }

/-- `StackState::free_stack_copy`: frees the heap buffer, zeroing
`_stack_saved`. -/
def StackState.free_stack_copy (s : StackState) : StackState :=
  { s with stack_copy := [] }

/-- `StackState::set_inactive`: clears `_stack_start` and frees any heap
copy still held. -/
def StackState.set_inactive (s : StackState) : StackState :=
  let s2 : StackState := { s with stack_start := 0 }
  if s2.stack_saved ≠ 0 then s2.free_stack_copy else s2

/-- `StackState::make_main`: started and active with the sentinel stop. -/
def StackState.make_main : StackState :=
  { stack_start := 1, stack_stop := mainStackSentinel }

/-- `StackState::StackState(void* mark, StackState& current)` (field part):
started at `mark`, not yet active, nothing saved.  The `stack_prev` member
(skipping a dying `current`) is modelled by the chain walk below. -/
def StackState.bootstrapNew (mark : Nat) : StackState :=
  { stack_stop := mark }

/-- `Greenlet::deactivate_and_free` (TGreenlet.cpp 503-524), restricted to
its `StackState` effect: `if (!active) return; stack_state = StackState();`. -/
def StackState.deactivate_and_free (s : StackState) : StackState :=
  if s.active then StackState.initialS else s

/-- `Greenlet::murder_in_place` (TGreenlet.cpp 494-501), `StackState`
effect: calls `deactivate_and_free` when active. -/
def StackState.murder_in_place (s : StackState) : StackState :=
  if s.active then s.deactivate_and_free else s

/-- Byte memory: `memcpy(dst, buf, buf.length)` writing a buffer at an
address. -/
def writeBytes (mem : Nat → Nat) (addr : Nat) : List Nat → (Nat → Nat)
  | [] => mem
  | b :: bs => writeBytes (Function.update mem addr b) (addr + 1) bs

/-- Reading `n` bytes of memory starting at `addr`. -/
def readBytes (mem : Nat → Nat) (addr n : Nat) : List Nat :=
  (List.range n).map fun i => mem (addr + i)

/-- The dying-greenlet skip at the head of `copy_heap_to_stack` /
`copy_stack_to_heap`: `if (!owner->_stack_start) owner = owner->stack_prev`.
The chain is `current` followed by its `stack_prev` chain. -/
def skipDying (chain : List StackState) : List StackState :=
  match chain with
  | [] => []
  | c :: rest => if c.stack_start = 0 then rest else c :: rest

/-- The prev-recomputation loop of `copy_heap_to_stack`:
`while (owner && owner->stack_stop <= this->stack_stop) owner = owner->stack_prev`. -/
def findStackOwner (chain : List StackState) (stop : Nat) : Option StackState :=
  match chain with
  | [] => Option.none
  | o :: rest => if o.stack_stop ≤ stop then findStackOwner rest stop else some o

/-- `StackState::copy_heap_to_stack` (TStackState.cpp 86-104): restore the
heap copy onto the native stack, free it, and recompute the prev link.
Returns `(updated self, new prev link, updated memory)`. -/
def StackState.copy_heap_to_stack (s : StackState) (chain : List StackState)
    (mem : Nat → Nat) : StackState × Option StackState × (Nat → Nat) :=
  let restored : StackState × (Nat → Nat) :=
    if s.stack_saved ≠ 0 then
      ({ s with stack_copy := [] }, writeBytes mem s.stack_start s.stack_copy)
    else (s, mem)
  (restored.1, findStackOwner (skipDying chain) s.stack_stop, restored.2)

/-- `StackState::copy_stack_to_heap_up_to` (TStackState.cpp 106-132): grow
the heap copy so that it covers the stack up to `stop`.  The realloc keeps
the already-saved prefix; the memcpy appends the missing bytes. -/
def StackState.copy_stack_to_heap_up_to (s : StackState) (stop : Nat)
    (mem : Nat → Nat) : StackState :=
  let sz1 : Int := s.stack_saved
  let sz2 : Int := (stop : Int) - (s.stack_start : Int)
  if sz1 < sz2 then
    { s with stack_copy :=
        s.stack_copy ++ readBytes mem (s.stack_start + s.stack_saved) (sz2 - sz1).toNat }
  else s

/-- `StackState` values reachable through the operations the runtime
performs on them.  `boot` requires a non-null `mark` (it is the address of
a stack variable of `g_initialstub`); `activate` is only invoked from
`inner_bootstrap` right after the bootstrap constructor ran, so the state
is started and, per the source's `assert(_stack_start == nullptr)`, not
active; `save` is only invoked on stack states found live on the current
ownership chain (`assert(this->_stack_start)` in the source). -/
inductive ReachableStack : StackState → Prop where
  | initial : ReachableStack StackState.initialS
  | boot (mark : Nat) (h : mark ≠ 0) : ReachableStack (StackState.bootstrapNew mark)
  | mainStack : ReachableStack StackState.make_main
  | activate (s : StackState) (hs : ReachableStack s) (hstarted : s.started = true)
      (hinactive : s.stack_start = 0) : ReachableStack s.set_active
  | deactivate (s : StackState) (hs : ReachableStack s) : ReachableStack s.set_inactive
  | freeCopy (s : StackState) (hs : ReachableStack s) : ReachableStack s.free_stack_copy
  | deactivateFree (s : StackState) (hs : ReachableStack s) :
      ReachableStack s.deactivate_and_free
  | murder (s : StackState) (hs : ReachableStack s) : ReachableStack s.murder_in_place
  | restore (s : StackState) (chain : List StackState) (mem : Nat → Nat)
      (hs : ReachableStack s) : ReachableStack (s.copy_heap_to_stack chain mem).1
  | save (s : StackState) (stop : Nat) (mem : Nat → Nat) (hs : ReachableStack s)
      (hactive : s.active = true) : ReachableStack (s.copy_stack_to_heap_up_to stop mem)

/-! ## Greenlets and the per-thread environment

A `GEnv` bundles the state the protocol touches: the greenlet objects (a
function from identities), which greenlet is current on the calling thread
(`ThreadState::get_current`), the calling thread's main greenlet
(`GET_THREAD_STATE().state().borrow_main_greenlet()`), which main
greenlets still have a live `ThreadState*`, the Python error indicator
(`PyErr_Occurred`) and the installed trace function. -/

abbrev GId := Nat

/-- A pending Python exception: either the `GreenletExit` exit marker
(carrying its optional value) or any other exception object. -/
inductive PyExc where
  | greenletExit (val : Option PyObj)
  | otherExc (e : PyObj)

/-- Errors thrown as `PyErrOccurred` by the modelled functions.  Each
constructor names the exact source message. -/
inductive GError where
  /-- greenlet.error "cannot switch to a garbage collected greenlet" -/
  | errGarbageCollected
  /-- greenlet.error "cannot switch to a different thread (which happens to have exited)" -/
  | errThreadExited
  /-- greenlet.error "cannot switch to a different thread" -/
  | errDifferentThread
  /-- ValueError "cyclic parent chain" -/
  | errCyclicParentChain
  /-- ValueError "parent must not be garbage collected" -/
  | errParentGarbageCollected
  /-- ValueError "parent cannot be on a different thread" -/
  | errParentDifferentThread
  /-- AttributeError from deleting an attribute -/
  | errDeleteAttr
  /-- AttributeError from `PyRequireAttr(str_run)` -/
  | errNoRunAttr
  /-- an already-pending Python exception propagating across the switch -/
  | raisedExc (e : PyExc)
  /-- model artefact: the recursion bound was exhausted -/
  | outOfFuel

/-- Whether an error is the `greenlet.error` domain error
(`mod_globs->PyExc_GreenletError`). -/
def GError.isGreenletError : GError → Bool
  | .errGarbageCollected => true
  | .errThreadExited => true
  | .errDifferentThread => true
  | _ => false

/-- The per-greenlet data the protocol reads and writes: the owned
`StackState`, the `_parent` link, the `_main_greenlet` link (established at
first switch-in), the transient `switch_args`, and whether this is the
thread's main greenlet. -/
@[ext]
structure Greenlet where
  stack : StackState := {}
  parent : Option GId := Option.none
  main_greenlet : Option GId := Option.none
  switch_args : SwitchingArgs := {}
  is_main : Bool := false

@[ext]
structure GEnv where
  glets : GId → Greenlet
  current : GId
  this_thread_main : GId
  thread_alive : GId → Bool
  pending_exc : Option PyExc := Option.none
  tracefunc : Option PyObj := Option.none

def GEnv.get (env : GEnv) (g : GId) : Greenlet := env.glets g

def GEnv.update (env : GEnv) (g : GId) (f : Greenlet → Greenlet) : GEnv :=
  { env with glets := Function.update env.glets g (f (env.glets g)) }

def GEnv.setArgs (env : GEnv) (g : GId) (a : SwitchingArgs) : GEnv :=
  env.update g fun gl => { gl with switch_args := a }

/-- `dst->args() <<= src->args()`: the `SwitchingArgs` move operator —
copy both members to the destination, clear the source.  (When `src = dst`
the source operator is a no-op via its self-assignment check; clearing
then rewriting gives the same result.) -/
def GEnv.moveArgs (env : GEnv) (src dst : GId) : GEnv :=
  let a := (env.get src).switch_args
  (env.setArgs src {}).setArgs dst a

def GEnv.startedG (env : GEnv) (g : GId) : Bool := (env.get g).stack.started

def GEnv.activeG (env : GEnv) (g : GId) : Bool := (env.get g).stack.active

/-- Dead: started but no longer active. -/
def GEnv.deadG (env : GEnv) (g : GId) : Bool :=
  (env.get g).stack.started && !(env.get g).stack.active

/-- `find_main_greenlet_in_lineage` (TUserGreenlet.cpp 66-81 and
TMainGreenlet.cpp): a main greenlet answers itself; a started user
greenlet answers its `_main_greenlet`; otherwise the parent chain is
consulted, NULL if it runs out.  `fuel` bounds the chain walk. -/
def findMainInLineage (env : GEnv) : Nat → GId → Option GId
  | 0, _ => Option.none
  | fuel+1, g =>
    let gl := env.get g
    if gl.is_main then some g
    else if gl.stack.started then gl.main_greenlet
    else
      match gl.parent with
      | Option.none => Option.none
      | some p => findMainInLineage env fuel p

/-- `Greenlet::check_switch_allowed` (TGreenlet.cpp 215-275). -/
def check_switch_allowed (env : GEnv) (fuel : Nat) (self : GId) : Option GError :=
  match findMainInLineage env fuel self with
  | Option.none => some GError.errGarbageCollected
  | some maing =>
    if env.thread_alive maing = false then some GError.errThreadExited
    else
      if env.this_thread_main ≠ maing
         ∨ ((env.get self).main_greenlet.isSome ∧ env.this_thread_main ≠ maing)
         ∨ env.thread_alive env.this_thread_main = false
      then some GError.errDifferentThread
      else Option.none

/-- What the target-resolution loop of `UserGreenlet::g_switch`
(TUserGreenlet.cpp 155-199) decided to do. -/
inductive SwitchResolution where
  | switchstack (target : GId)
  | toBoot (target : GId)
  | ranOut
  deriving DecidableEq, Repr

/-- The `while (target)` loop of `UserGreenlet::g_switch`: walk `target`
then its ancestors, skipping Dead greenlets, until one is Active (resume
it) or NotStarted (bootstrap it); transfer `self`'s switch arguments to
the resolved target when it is not `self`.  Returns the updated
environment and the resolution (`Option.none` when `fuel` ran out). -/
def gSwitchResolveLoop (env : GEnv) (self : GId) :
    Nat → Option GId → Bool → GEnv × Option SwitchResolution
  | 0, _, _ => (env, Option.none)
  | _+1, Option.none, _ => (env, some SwitchResolution.ranOut)
  | fuel+1, some t, targetWasMe =>
    let gt := env.get t
    if gt.stack.active then
      let env2 := if targetWasMe then env else env.moveArgs self t
      (env2, some (SwitchResolution.switchstack t))
    else if gt.stack.started = false then
      let env2 := if targetWasMe then env else env.moveArgs self t
      (env2, some (SwitchResolution.toBoot t))
    else
      gSwitchResolveLoop env self fuel gt.parent false

/-- Result of `Greenlet::g_switch_finish` (TGreenlet.cpp 414-463) running
on the greenlet control arrived in. -/
inductive FinishResult where
  | finished (result : Option PyObj) (env : GEnv)
  | raisedF (e : GError) (env : GEnv)
  /-- a trace function is installed; its invocation runs arbitrary code
  and is not modelled -/
  | traceCall (result : Option PyObj) (env : GEnv)

/-- `Greenlet::g_switch_finish`: consume the arriving `SwitchingArgs` into
the switch result (clearing them), then invoke the trace function if one
is installed, then re-raise if a Python exception is pending. -/
def g_switch_finish (env : GEnv) (self : GId) : FinishResult :=
  let a := (env.get self).switch_args
  let result : Option PyObj := if a.isSet then (packageSwitchingArgs a).1 else Option.none
  let env2 := env.setArgs self {}
  match env2.tracefunc with
  | some _ => FinishResult.traceCall result env2
  | Option.none =>
    match env2.pending_exc with
    | some e => FinishResult.raisedF (GError.raisedExc e) (env2.setArgs self {})
    | Option.none => FinishResult.finished result env2

/-- Outcome of a `g_switch` call as seen from the calling greenlet's
frame. -/
inductive GSwitchOutcome where
  /-- `PyErrOccurred` propagated to the caller; `env` is the state after
  the `release_args()` in the catch handler -/
  | failed (e : GError) (env : GEnv)
  /-- `g_switchstack` performed a real stack pivot into `target`; control
  left the calling greenlet (`env.current = target`).  The arrival side —
  `g_switch_finish` running in the target's resumed frame — is modelled
  separately by `green_switch_receive`. -/
  | pivot (target : GId) (env : GEnv)
  /-- the resolved target was already current: `g_switchstack` returned
  without pivoting and `g_switch_finish` ran immediately in the caller -/
  | degenerate (result : Option PyObj) (env : GEnv)
  /-- the resolved target is NotStarted: `g_initialstub` bootstraps it -/
  | toBootstrap (target : GId) (env : GEnv)
  /-- the parent chain ran out of candidates (`while (target)` ended) -/
  | noTarget (env : GEnv)
  /-- a trace function is installed (not modelled further) -/
  | traceCall (result : Option PyObj) (env : GEnv)
  | outOfFuel (env : GEnv)

/-- `UserGreenlet::g_switch` (TUserGreenlet.cpp 123-217) up to the point
where control either leaves the calling greenlet or returns to it:
check preconditions (releasing the args on failure), resolve the real
target, and either bootstrap it, pivot to it, or — when the resolved
target is already current — run `g_switch_finish` in place. -/
def g_switch (env : GEnv) (fuel : Nat) (self : GId) : GSwitchOutcome :=
  match check_switch_allowed env fuel self with
  | some e => GSwitchOutcome.failed e (env.setArgs self {})
  | Option.none =>
    match gSwitchResolveLoop env self fuel (some self) true with
    | (env2, Option.none) => GSwitchOutcome.outOfFuel env2
    | (env2, some SwitchResolution.ranOut) => GSwitchOutcome.noTarget env2
    | (env2, some (SwitchResolution.toBoot t)) => GSwitchOutcome.toBootstrap t env2
    | (env2, some (SwitchResolution.switchstack t)) =>
      if env2.current = t then
        match g_switch_finish env2 t with
        | FinishResult.finished r env3 => GSwitchOutcome.degenerate r env3
        | FinishResult.raisedF e env3 => GSwitchOutcome.failed e env3
        | FinishResult.traceCall r env3 => GSwitchOutcome.traceCall r env3
      else
        GSwitchOutcome.pivot t { env2 with current := t }

/-- `green_switch` (greenlet.cpp 501-563), sending half: pack the call's
positional tuple and keyword dict into the target's `SwitchingArgs`
(`self->pimpl->args() <<= switch_args`) and run `g_switch`. -/
def green_switch_send (env : GEnv) (fuel : Nat) (target : GId) (args : PyObj)
    (kwargs : Option PyObj) : GSwitchOutcome :=
  g_switch (env.setArgs target { args := some args, kwargs := kwargs }) fuel target

/-- The arrival side of a switch: control re-enters `self`'s suspended
`g_switch` frame, which runs `g_switch_finish`; `green_switch` then
applies `single_result` to the value before returning it to Python. -/
def green_switch_receive (env : GEnv) (self : GId) : FinishResult :=
  match g_switch_finish env self with
  | FinishResult.finished r env2 => FinishResult.finished (single_result r) env2
  | other => other

/-! ## Bootstrap (`UserGreenlet::g_initialstub`, TUserGreenlet.cpp 221-377) -/

/-- Outcome of `g_initialstub`. -/
inductive InitialstubOutcome where
  /-- `err.status == 1`: control is inside the new greenlet, whose
  `inner_bootstrap` will invoke the entry point `run` exactly here -/
  | enterNew (env : GEnv) (run : PyObj)
  /-- `GreenletStartedWhileInPython` was thrown: another path started the
  greenlet while `run` was being resolved; the caller's loop retries -/
  | retryStarted (env : GEnv)
  | failedI (e : GError) (env : GEnv)

/-- `UserGreenlet::g_initialstub`: capture the pending switch arguments,
resolve the `run` attribute — `runAttr` stands for `PyRequireAttr`, whose
attribute lookup may run arbitrary Python code (it receives and returns
the environment, plus the resolved callable or NULL) — re-check that
switching is allowed, and re-check that the greenlet is *still* not
started: if a concurrent start happened during the lookup, restore the
captured arguments and signal a retry.  Otherwise install the new
`StackState` anchored at `mark`, record the thread's main greenlet, and
pivot into the new greenlet. -/
def g_initialstub (env : GEnv) (fuel : Nat) (self : GId) (mark : Nat)
    (runAttr : GEnv → GEnv × Option PyObj) : InitialstubOutcome :=
  let captured := (env.get self).switch_args
  let stepped := runAttr env
  match stepped.2 with
  | Option.none => InitialstubOutcome.failedI GError.errNoRunAttr stepped.1
  | some run =>
    let env1 := stepped.1
    match check_switch_allowed env1 fuel self with
    | some e => InitialstubOutcome.failedI e env1
    | Option.none =>
      if (env1.get self).stack.started then
        InitialstubOutcome.retryStarted (env1.setArgs self captured)
      else
        let env2 := env1.update self fun gl =>
          { gl with stack := StackState.bootstrapNew mark,
                    main_greenlet := some env1.this_thread_main }
        InitialstubOutcome.enterNew { env2 with current := self } run

/-! ## Exit propagation (`g_handle_exit`, `UserGreenlet::inner_bootstrap`) -/

/-- Whether the pending exception matches `GreenletExit`
(`mod_globs->PyExc_GreenletExit.PyExceptionMatches()`). -/
def matchesGreenletExit : Option PyExc → Bool
  | some (PyExc.greenletExit _) => true
  | _ => false

/-- `g_handle_exit` (TGreenlet.cpp 385-407): an uncaught `GreenletExit`
is caught and turned into a normal result (its value, or `None` when it
carries none, with the error indicator cleared by `PyErr_Fetch`); a real
result is packed into a 1-tuple; anything else (a pending ordinary
exception) passes through as NULL. -/
def g_handle_exit (result : Option PyObj) (pending : Option PyExc) :
    Option PyObj × Option PyExc :=
  match result, pending with
  | Option.none, some (PyExc.greenletExit val) =>
      (some (val.getD PyObj.noneV), Option.none)
  | some r, p => (some (PyObj.tuple [r]), p)
  | Option.none, p => (Option.none, p)

/-- The `for (parent = this->_parent; ...)` loop at the end of
`inner_bootstrap` (TUserGreenlet.cpp 534-560): hand the result to the
parent (`parent->args() <<= result`, the `OwnedObject` overload — it sets
the args member and clears the kwargs, a NULL result encoding a throw) and
switch to it; if that switch raises, move on to the next parent with a
NULL result.  Running out of parents is fatal in the source
(`Py_FatalError`), modelled as `noTarget`. -/
def exit_forward (env : GEnv) : Nat → Option GId → Option PyObj → GSwitchOutcome
  | 0, _, _ => GSwitchOutcome.outOfFuel env
  | _+1, Option.none, _ => GSwitchOutcome.noTarget env
  | fuel+1, some par, result =>
    let env2 := env.setArgs par { args := result, kwargs := Option.none }
    match g_switch env2 fuel par with
    | GSwitchOutcome.failed _ env3 => exit_forward env3 fuel (env3.get par).parent Option.none
    | other => other

/-- The epilogue of `UserGreenlet::inner_bootstrap` (TUserGreenlet.cpp
508-566) after the entry point produced `runResult` (NULL when it raised
and the exception is pending): the dealloc-resurrection special case,
`release_args`, `g_handle_exit`, `set_inactive` (the greenlet is now
Dead), and the forwarding loop over the parent chain. -/
def inner_bootstrap_finish (env : GEnv) (fuel : Nat) (self : GId)
    (runResult : Option PyObj) : GSwitchOutcome :=
  let g := env.get self
  let result0 : Option PyObj :=
    if runResult.isNone ∧ matchesGreenletExit env.pending_exc ∧ g.switch_args.isSet then
      single_result (packageSwitchingArgs g.switch_args).1
    else runResult
  let env1 := env.setArgs self {}
  let handled := g_handle_exit result0 env1.pending_exc
  let env2 : GEnv := { env1 with pending_exc := handled.2 }
  let env3 := env2.update self fun gl => { gl with stack := gl.stack.set_inactive }
  exit_forward env3 fuel (env3.get self).parent handled.1

/-! ## Parent assignment (`UserGreenlet::parent`, TUserGreenlet.cpp 585-613) -/

/-- The main greenlet of a greenlet object, as `p->main_greenlet()`
reports it: a main greenlet answers itself, a user greenlet its
`_main_greenlet` member. -/
def mainGreenletOf (env : GEnv) (p : GId) : Option GId :=
  if (env.get p).is_main then some p else (env.get p).main_greenlet

/-- The `for (p = new_parent; p; p = p->parent())` loop of the parent
setter: fail on the first `p == self` with the cyclic-chain error,
otherwise remember `p->main_greenlet()` and continue; when the chain ends,
answer the last main greenlet seen. -/
def set_parent_loop (env : GEnv) (self : GId) :
    Nat → Option GId → Option GId → Except GError (Option GId)
  | _, Option.none, mg => Except.ok mg
  | 0, some _, _ => Except.error GError.outOfFuel
  | fuel+1, some p, _ =>
    if p = self then Except.error GError.errCyclicParentChain
    else set_parent_loop env self fuel (env.get p).parent (mainGreenletOf env p)

/-- `UserGreenlet::parent(const BorrowedObject)`: validate (cycle check,
reachable main greenlet, same-thread check for a started greenlet) and
only then assign `_parent`.  No state is mutated before a throw, so an
error result leaves the environment — in particular the whole parent
tree — exactly as it was. -/
def set_parent (env : GEnv) (fuel : Nat) (self : GId) (raw_new_parent : Option GId) :
    Except GError GEnv :=
  match raw_new_parent with
  | Option.none => Except.error GError.errDeleteAttr
  | some np =>
    match set_parent_loop env self fuel (some np) Option.none with
    | Except.error e => Except.error e
    | Except.ok Option.none => Except.error GError.errParentGarbageCollected
    | Except.ok (some mgnp) =>
      if (env.get self).stack.started ∧ (env.get self).main_greenlet ≠ some mgnp then
        Except.error GError.errParentDifferentThread
      else
        Except.ok (env.update self fun gl => { gl with parent := some np })

/-- The parent chain of a greenlet reference: the greenlet itself followed
by its ancestors, cut off by `fuel`. -/
def parentChain (env : GEnv) : Nat → Option GId → List GId
  | _, Option.none => []
  | 0, some _ => []
  | fuel+1, some p => p :: parentChain env fuel (env.get p).parent

/-- Two environments agreeing on everything `check_switch_allowed` and the
target-resolution read, i.e. differing at most in switch arguments, the
current greenlet, the error indicator and the trace function. -/
def EqShape (env env2 : GEnv) : Prop :=
  env2.this_thread_main = env.this_thread_main
  ∧ env2.thread_alive = env.thread_alive
  ∧ ∀ x, (env2.get x).is_main = (env.get x).is_main
       ∧ (env2.get x).stack = (env.get x).stack
       ∧ (env2.get x).parent = (env.get x).parent
       ∧ (env2.get x).main_greenlet = (env.get x).main_greenlet

/-- The stack-byte invariant maintained by the lifecycle: an unstarted
`StackState` has no live stack pointer and no heap copy; an inactive one
has no heap copy. -/
def StackInv (s : StackState) : Prop :=
  (s.started = false → s.stack_start = 0 ∧ s.stack_copy = [])
  ∧ (s.active = false → s.stack_copy = [])

/-! ## Concrete fixtures (used to instantiate the theorems) -/

def testStack (start stop : Nat) : StackState :=
  { stack_start := start, stack_stop := stop }

/-- A small single-thread world: greenlet 0 is the thread's main greenlet
(current), 1 and 2 are active user greenlets, 3 is dead with parent 2,
4 is dead with parent 0, 5 is not yet started, 8 started on another
thread (main greenlet 7) that has since exited. -/
def testEnv : GEnv :=
  { glets := fun n =>
      if n = 0 then
        { stack := StackState.make_main, parent := Option.none,
          main_greenlet := some 0, is_main := true }
      else if n = 1 then
        { stack := testStack 90 100, parent := some 0, main_greenlet := some 0 }
      else if n = 2 then
        { stack := testStack 70 80, parent := some 0, main_greenlet := some 0 }
      else if n = 3 then
        { stack := testStack 0 60, parent := some 2, main_greenlet := some 0 }
      else if n = 4 then
        { stack := testStack 0 50, parent := some 0, main_greenlet := some 0 }
      else if n = 5 then
        { stack := {}, parent := some 0, main_greenlet := Option.none }
      else if n = 8 then
        { stack := testStack 30 40, parent := some 0, main_greenlet := some 7 }
      else
        { stack := {}, parent := Option.none, main_greenlet := Option.none },
    current := 0,
    this_thread_main := 0,
    thread_alive := fun n => n == 0 }

/-- `testEnv` as seen from inside greenlet 1, with an uncaught
`GreenletExit` carrying the value 42 pending. -/
def testEnvExit : GEnv :=
  { testEnv with
      current := 1
      pending_exc := some (PyExc.greenletExit (some (PyObj.intV 42))) }

/-- A suspended stack region with two evacuated bytes, for the
restoration fixture. -/
def c6State : StackState :=
  { stack_start := 5, stack_stop := 50, stack_copy := [9, 8] }

/-- An ownership chain whose head (the current, dying greenlet) has a
null `stack_start`, for the restoration fixture. -/
def c6Chain : List StackState :=
  [testStack 0 60, testStack 7 40, testStack 3 70]

/-- An attribute-lookup oracle for the bootstrap fixture: resolving `run`
on greenlet 5 runs Python code that itself starts greenlet 5. -/
def testRunAttr : GEnv → GEnv × Option PyObj :=
  fun e =>
    (e.update 5 (fun gl =>
      { gl with stack := testStack 20 30, main_greenlet := some 0 }),
     some (PyObj.strV "run"))

/-! ## Basic lemmas about the environment -/

@[simp]
theorem StackState.started_eq_true_iff (s : StackState) :
    s.started = true ↔ s.stack_stop ≠ 0 := by
  simp [StackState.started]

@[simp]
theorem StackState.started_eq_false_iff (s : StackState) :
    s.started = false ↔ s.stack_stop = 0 := by
  simp [StackState.started]

@[simp]
theorem StackState.active_eq_true_iff (s : StackState) :
    s.active = true ↔ s.stack_start ≠ 0 := by
  simp [StackState.active]

@[simp]
theorem StackState.active_eq_false_iff (s : StackState) :
    s.active = false ↔ s.stack_start = 0 := by
  simp [StackState.active]

@[simp]
theorem GEnv.get_update_self (env : GEnv) (g : GId) (f : Greenlet → Greenlet) :
    (env.update g f).get g = f (env.get g) := by
  simp [GEnv.update, GEnv.get]

theorem GEnv.get_update_ne (env : GEnv) (g x : GId) (f : Greenlet → Greenlet)
    (h : x ≠ g) : (env.update g f).get x = env.get x := by
  simp [GEnv.update, GEnv.get, Function.update_noteq h]

@[simp]
theorem GEnv.update_current (env : GEnv) (g : GId) (f : Greenlet → Greenlet) :
    (env.update g f).current = env.current := rfl

@[simp]
theorem GEnv.update_ttm (env : GEnv) (g : GId) (f : Greenlet → Greenlet) :
    (env.update g f).this_thread_main = env.this_thread_main := rfl

@[simp]
theorem GEnv.update_alive (env : GEnv) (g : GId) (f : Greenlet → Greenlet) :
    (env.update g f).thread_alive = env.thread_alive := rfl

@[simp]
theorem GEnv.update_pending (env : GEnv) (g : GId) (f : Greenlet → Greenlet) :
    (env.update g f).pending_exc = env.pending_exc := rfl

@[simp]
theorem GEnv.update_tracefunc (env : GEnv) (g : GId) (f : Greenlet → Greenlet) :
    (env.update g f).tracefunc = env.tracefunc := rfl

@[simp]
theorem GEnv.get_setArgs_self (env : GEnv) (g : GId) (a : SwitchingArgs) :
    (env.setArgs g a).get g = { env.get g with switch_args := a } := by
  simp [GEnv.setArgs]

theorem GEnv.get_setArgs_ne (env : GEnv) (g x : GId) (a : SwitchingArgs)
    (h : x ≠ g) : (env.setArgs g a).get x = env.get x := by
  simp [GEnv.setArgs, GEnv.get_update_ne _ _ _ _ h]

@[simp]
theorem GEnv.get_setArgs_stack (env : GEnv) (g x : GId) (a : SwitchingArgs) :
    ((env.setArgs g a).get x).stack = (env.get x).stack := by
  by_cases hx : x = g
  · subst hx; simp
  · rw [GEnv.get_setArgs_ne _ _ _ _ hx]

@[simp]
theorem GEnv.get_setArgs_parent (env : GEnv) (g x : GId) (a : SwitchingArgs) :
    ((env.setArgs g a).get x).parent = (env.get x).parent := by
  by_cases hx : x = g
  · subst hx; simp
  · rw [GEnv.get_setArgs_ne _ _ _ _ hx]

@[simp]
theorem GEnv.get_setArgs_main (env : GEnv) (g x : GId) (a : SwitchingArgs) :
    ((env.setArgs g a).get x).main_greenlet = (env.get x).main_greenlet := by
  by_cases hx : x = g
  · subst hx; simp
  · rw [GEnv.get_setArgs_ne _ _ _ _ hx]

@[simp]
theorem GEnv.get_setArgs_isMain (env : GEnv) (g x : GId) (a : SwitchingArgs) :
    ((env.setArgs g a).get x).is_main = (env.get x).is_main := by
  by_cases hx : x = g
  · subst hx; simp
  · rw [GEnv.get_setArgs_ne _ _ _ _ hx]

@[simp]
theorem GEnv.setArgs_current (env : GEnv) (g : GId) (a : SwitchingArgs) :
    (env.setArgs g a).current = env.current := rfl

@[simp]
theorem GEnv.setArgs_ttm (env : GEnv) (g : GId) (a : SwitchingArgs) :
    (env.setArgs g a).this_thread_main = env.this_thread_main := rfl

@[simp]
theorem GEnv.setArgs_alive (env : GEnv) (g : GId) (a : SwitchingArgs) :
    (env.setArgs g a).thread_alive = env.thread_alive := rfl

@[simp]
theorem GEnv.setArgs_pending (env : GEnv) (g : GId) (a : SwitchingArgs) :
    (env.setArgs g a).pending_exc = env.pending_exc := rfl

@[simp]
theorem GEnv.setArgs_tracefunc (env : GEnv) (g : GId) (a : SwitchingArgs) :
    (env.setArgs g a).tracefunc = env.tracefunc := rfl

theorem GEnv.setArgs_of_eq (env : GEnv) (g : GId) (a : SwitchingArgs)
    (h : (env.get g).switch_args = a) : env.setArgs g a = env := by
  ext1
  · funext x
    by_cases hx : x = g
    · subst hx
      have h1 : (env.setArgs x a).glets x = (env.setArgs x a).get x := rfl
      rw [h1, GEnv.get_setArgs_self, ← h]
      rfl
    · have : (env.setArgs g a).glets x = env.get x := GEnv.get_setArgs_ne env g x a hx
      exact this
  · rfl
  · rfl
  · rfl
  · rfl
  · rfl

theorem GEnv.setArgs_setArgs (env : GEnv) (g : GId) (a b : SwitchingArgs) :
    (env.setArgs g a).setArgs g b = env.setArgs g b := by
  ext1
  · funext x
    by_cases hx : x = g
    · subst hx
      have h1 : ((env.setArgs x a).setArgs x b).glets x
          = ((env.setArgs x a).setArgs x b).get x := rfl
      have h2 : (env.setArgs x b).glets x = (env.setArgs x b).get x := rfl
      rw [h1, h2, GEnv.get_setArgs_self, GEnv.get_setArgs_self, GEnv.get_setArgs_self]
    · have h1 : ((env.setArgs g a).setArgs g b).glets x
          = ((env.setArgs g a).setArgs g b).get x := rfl
      have h2 : (env.setArgs g b).glets x = (env.setArgs g b).get x := rfl
      rw [h1, h2, GEnv.get_setArgs_ne _ _ _ _ hx, GEnv.get_setArgs_ne _ _ _ _ hx,
        GEnv.get_setArgs_ne _ _ _ _ hx]
  · rfl
  · rfl
  · rfl
  · rfl
  · rfl

theorem eqShape_refl (env : GEnv) : EqShape env env :=
  ⟨rfl, rfl, fun _ => ⟨rfl, rfl, rfl, rfl⟩⟩

theorem EqShape.trans {e1 e2 e3 : GEnv} (h12 : EqShape e1 e2) (h23 : EqShape e2 e3) :
    EqShape e1 e3 := by
  obtain ⟨a12, b12, c12⟩ := h12
  obtain ⟨a23, b23, c23⟩ := h23
  refine ⟨a23.trans a12, b23.trans b12, fun x => ?_⟩
  obtain ⟨p1, q1, r1, s1⟩ := c12 x
  obtain ⟨p2, q2, r2, s2⟩ := c23 x
  exact ⟨p2.trans p1, q2.trans q1, r2.trans r1, s2.trans s1⟩

theorem eqShape_setArgs (env : GEnv) (g : GId) (a : SwitchingArgs) :
    EqShape env (env.setArgs g a) := by
  refine ⟨rfl, rfl, fun x => ⟨?_, ?_, ?_, ?_⟩⟩ <;> simp

theorem eqShape_setCurrent (env : GEnv) (c : GId) :
    EqShape env { env with current := c } :=
  ⟨rfl, rfl, fun _ => ⟨rfl, rfl, rfl, rfl⟩⟩

theorem eqShape_moveArgs (env : GEnv) (s d : GId) :
    EqShape env (env.moveArgs s d) :=
  EqShape.trans (eqShape_setArgs env s {})
    (eqShape_setArgs (env.setArgs s {}) d (env.get s).switch_args)

theorem findMainInLineage_eqShape (env env2 : GEnv) (h : EqShape env env2) :
    ∀ fuel x, findMainInLineage env2 fuel x = findMainInLineage env fuel x := by
  intro fuel
  induction fuel with
  | zero => intro x; rfl
  | succ n ih =>
    intro x
    obtain ⟨_, _, hx⟩ := h
    obtain ⟨him, hst, hpar, hmg⟩ := hx x
    cases hp : (env.get x).parent with
    | none => simp [findMainInLineage, him, hst, hmg, hpar, hp]
    | some p => simp [findMainInLineage, him, hst, hmg, hpar, hp, ih]

theorem check_switch_allowed_eqShape (env env2 : GEnv) (h : EqShape env env2)
    (fuel : Nat) (x : GId) :
    check_switch_allowed env2 fuel x = check_switch_allowed env fuel x := by
  have hfm := findMainInLineage_eqShape env env2 h fuel x
  obtain ⟨httm, halive, hx⟩ := h
  obtain ⟨him, hst, hpar, hmg⟩ := hx x
  simp only [check_switch_allowed, hfm, httm, halive, hmg]

/-! ## StackState computation lemmas -/

theorem StackState.set_inactive_eq (s : StackState) :
    s.set_inactive = { s with stack_start := 0, stack_copy := [] } := by
  obtain ⟨a, b, c⟩ := s
  unfold StackState.set_inactive StackState.free_stack_copy
  by_cases h : c.length = 0
  · have hc : c = [] := List.length_eq_zero.mp h
    subst hc
    simp [StackState.stack_saved]
  · simp [StackState.stack_saved, h]

theorem StackState.copy_heap_to_stack_fst (s : StackState) (chain : List StackState)
    (mem : Nat → Nat) :
    (s.copy_heap_to_stack chain mem).1
      = if s.stack_saved ≠ 0 then { s with stack_copy := [] } else s := by
  unfold StackState.copy_heap_to_stack
  by_cases h : s.stack_saved ≠ 0 <;> simp [h]

theorem StackState.copy_heap_to_stack_mem (s : StackState) (chain : List StackState)
    (mem : Nat → Nat) :
    (s.copy_heap_to_stack chain mem).2.2
      = if s.stack_saved ≠ 0 then writeBytes mem s.stack_start s.stack_copy else mem := by
  unfold StackState.copy_heap_to_stack
  by_cases h : s.stack_saved ≠ 0 <;> simp [h]

theorem StackState.copy_heap_to_stack_prev (s : StackState) (chain : List StackState)
    (mem : Nat → Nat) :
    (s.copy_heap_to_stack chain mem).2.1 = findStackOwner (skipDying chain) s.stack_stop := rfl

theorem StackState.save_up_to_start (s : StackState) (stop : Nat) (mem : Nat → Nat) :
    (s.copy_stack_to_heap_up_to stop mem).stack_start = s.stack_start := by
  unfold StackState.copy_stack_to_heap_up_to
  dsimp only
  split <;> rfl

theorem StackState.save_up_to_stop (s : StackState) (stop : Nat) (mem : Nat → Nat) :
    (s.copy_stack_to_heap_up_to stop mem).stack_stop = s.stack_stop := by
  unfold StackState.copy_stack_to_heap_up_to
  dsimp only
  split <;> rfl

theorem StackState.deactivate_of_active (s : StackState) (h : s.active = true) :
    s.deactivate_and_free = StackState.initialS := by
  unfold StackState.deactivate_and_free
  rw [if_pos h]

theorem StackState.deactivate_of_inactive (s : StackState) (h : ¬ s.active = true) :
    s.deactivate_and_free = s := by
  unfold StackState.deactivate_and_free
  rw [if_neg h]

theorem StackState.murder_of_active (s : StackState) (h : s.active = true) :
    s.murder_in_place = StackState.initialS := by
  unfold StackState.murder_in_place
  rw [if_pos h, StackState.deactivate_of_active s h]

theorem StackState.murder_of_inactive (s : StackState) (h : ¬ s.active = true) :
    s.murder_in_place = s := by
  unfold StackState.murder_in_place
  rw [if_neg h]

/-- The lifecycle operations maintain `StackInv`. -/
theorem reachable_stackInv (s : StackState) (h : ReachableStack s) : StackInv s := by
  induction h with
  | initial => exact ⟨fun _ => ⟨rfl, rfl⟩, fun _ => rfl⟩
  | boot mark hm => exact ⟨fun _ => ⟨rfl, rfl⟩, fun _ => rfl⟩
  | mainStack =>
    constructor
    · intro hst
      rw [StackState.started_eq_false_iff] at hst
      have he : StackState.make_main.stack_stop = mainStackSentinel := rfl
      rw [he] at hst
      exact absurd hst (by norm_num [mainStackSentinel])
    · intro hac
      rw [StackState.active_eq_false_iff] at hac
      have he : StackState.make_main.stack_start = 1 := rfl
      rw [he] at hac
      exact absurd hac one_ne_zero
  | activate s hs hstarted hinactive ih =>
    constructor
    · intro hst
      have he : s.set_active.started = s.started := rfl
      rw [he, hstarted] at hst
      cases hst
    · intro hac
      rw [StackState.active_eq_false_iff] at hac
      have he : s.set_active.stack_start = 1 := rfl
      rw [he] at hac
      exact absurd hac one_ne_zero
  | deactivate s hs ih =>
    rw [StackState.set_inactive_eq]
    exact ⟨fun _ => ⟨rfl, rfl⟩, fun _ => rfl⟩
  | freeCopy s hs ih =>
    constructor
    · intro hst
      have he : s.free_stack_copy.started = s.started := rfl
      rw [he] at hst
      exact ⟨(ih.1 hst).1, rfl⟩
    · intro _
      rfl
  | deactivateFree s hs ih =>
    by_cases hb : s.active = true
    · rw [StackState.deactivate_of_active s hb]
      exact ⟨fun _ => ⟨rfl, rfl⟩, fun _ => rfl⟩
    · rw [StackState.deactivate_of_inactive s hb]
      exact ih
  | murder s hs ih =>
    by_cases hb : s.active = true
    · rw [StackState.murder_of_active s hb]
      exact ⟨fun _ => ⟨rfl, rfl⟩, fun _ => rfl⟩
    · rw [StackState.murder_of_inactive s hb]
      exact ih
  | restore s chain mem hs ih =>
    rw [StackState.copy_heap_to_stack_fst]
    by_cases hb : s.stack_saved ≠ 0
    · rw [if_pos hb]
      constructor
      · intro hst
        have he : ({ s with stack_copy := [] } : StackState).started = s.started := rfl
        rw [he] at hst
        exact ⟨(ih.1 hst).1, rfl⟩
      · intro _
        rfl
    · rw [if_neg hb]
      exact ih
  | save s stop mem hs hactive ih =>
    constructor
    · intro hst
      rw [StackState.started_eq_false_iff, StackState.save_up_to_stop] at hst
      have hst2 : s.started = false := by
        rw [StackState.started_eq_false_iff]
        exact hst
      have hz := (ih.1 hst2).1
      rw [StackState.active_eq_true_iff] at hactive
      exact absurd hz hactive
    · intro hac
      rw [StackState.active_eq_false_iff, StackState.save_up_to_start] at hac
      rw [StackState.active_eq_true_iff] at hactive
      exact absurd hac hactive

/-! ## Claim theorems -/

/-- **C10** — payload packaging rule: delivering a switch payload of
positional `args` (always a tuple at the delivery sites) and keyword
`kwargs` produces, per `operator<<=(OwnedObject&, SwitchingArgs&)`: the
args object when kwargs is absent or an empty dict; the kwargs dict when
args is the empty tuple (and kwargs nonempty); otherwise the 2-tuple
`(args, kwargs)` — and the source `SwitchingArgs` is cleared by the
delivery, so the same payload is never delivered twice. -/
theorem switch_payload_packaging (xs : List PyObj) (kwargs : Option PyObj) :
    (packageSwitchingArgs { args := some (PyObj.tuple xs), kwargs := kwargs }).2
        = ({} : SwitchingArgs)
    ∧ (kwargs = Option.none →
        (packageSwitchingArgs { args := some (PyObj.tuple xs), kwargs := kwargs }).1
          = some (PyObj.tuple xs))
    ∧ (kwargs = some (PyObj.dict []) →
        (packageSwitchingArgs { args := some (PyObj.tuple xs), kwargs := kwargs }).1
          = some (PyObj.tuple xs))
    ∧ (∀ ps, kwargs = some (PyObj.dict ps) → ps ≠ [] → xs = [] →
        (packageSwitchingArgs { args := some (PyObj.tuple xs), kwargs := kwargs }).1
          = some (PyObj.dict ps))
    ∧ (∀ ps, kwargs = some (PyObj.dict ps) → ps ≠ [] → xs ≠ [] →
        (packageSwitchingArgs { args := some (PyObj.tuple xs), kwargs := kwargs }).1
          = some (PyObj.tuple [PyObj.tuple xs, PyObj.dict ps])) := by
  refine ⟨rfl, ?_, ?_, ?_, ?_⟩
  · intro hk
    subst hk
    rfl
  · intro hk
    subst hk
    simp [packageSwitchingArgs, pyDictSize]
  · intro ps hk hps hxs
    subst hk
    subst hxs
    have hlen : (ps.length : Int) ≠ 0 := by
      simp [hps]
    simp [packageSwitchingArgs, pyDictSize, pySequenceLength, hlen]
  · intro ps hk hps hxs
    subst hk
    have hlen : (ps.length : Int) ≠ 0 := by
      simp [hps]
    have hxlen : (xs.length : Int) ≠ 0 := by
      simp [hxs]
    simp [packageSwitchingArgs, pyDictSize, pySequenceLength, hlen, hxlen]

/-- Witness for C10 at a concrete payload: one positional argument plus a
nonempty keyword dict packs into the 2-tuple, and the source is cleared. -/
theorem switch_payload_packaging_witness :
    (packageSwitchingArgs
        { args := some (PyObj.tuple [PyObj.intV 1]),
          kwargs := some (PyObj.dict [(PyObj.strV "k", PyObj.intV 2)]) }).1
      = some (PyObj.tuple [PyObj.tuple [PyObj.intV 1],
          PyObj.dict [(PyObj.strV "k", PyObj.intV 2)]])
    ∧ (packageSwitchingArgs
        { args := some (PyObj.tuple [PyObj.intV 1]),
          kwargs := some (PyObj.dict [(PyObj.strV "k", PyObj.intV 2)]) }).2
      = ({} : SwitchingArgs) :=
  ⟨(switch_payload_packaging [PyObj.intV 1]
      (some (PyObj.dict [(PyObj.strV "k", PyObj.intV 2)]))).2.2.2.2
      [(PyObj.strV "k", PyObj.intV 2)] rfl (by simp) (by simp),
   (switch_payload_packaging [PyObj.intV 1]
      (some (PyObj.dict [(PyObj.strV "k", PyObj.intV 2)]))).1⟩

/-- **C9** — stack-byte invariant of the lifecycle state machine: over all
reachable `StackState`s, a NotStarted one holds no native stack pointer
and no heap-saved bytes, an inactive (Dead) one has its heap copy freed,
and each of the dying paths — `set_inactive` (normal completion),
`deactivate_and_free`, and `murder_in_place` — leaves the `StackState`
inactive with a zero saved-byte count. -/
theorem stack_bytes_lifecycle_invariant (s : StackState) (h : ReachableStack s) :
    (s.started = false → s.stack_start = 0 ∧ s.stack_saved = 0)
    ∧ (s.active = false → s.stack_saved = 0)
    ∧ (s.set_inactive.active = false ∧ s.set_inactive.stack_saved = 0)
    ∧ (s.deactivate_and_free.active = false ∧ s.deactivate_and_free.stack_saved = 0)
    ∧ (s.murder_in_place.active = false ∧ s.murder_in_place.stack_saved = 0) := by
  have hinv := reachable_stackInv s h
  obtain ⟨h1, h2⟩ := hinv
  refine ⟨?_, ?_, ?_, ?_, ?_⟩
  · intro hst
    exact ⟨(h1 hst).1, by rw [StackState.stack_saved, (h1 hst).2]; rfl⟩
  · intro hac
    rw [StackState.stack_saved, h2 hac]
    rfl
  · rw [StackState.set_inactive_eq]
    exact ⟨by simp, rfl⟩
  · by_cases hb : s.active = true
    · rw [StackState.deactivate_of_active s hb]
      exact ⟨rfl, rfl⟩
    · rw [StackState.deactivate_of_inactive s hb]
      have hb2 : s.active = false := by
        cases hq : s.active
        · rfl
        · exact absurd hq hb
      exact ⟨hb2, by rw [StackState.stack_saved, h2 hb2]; rfl⟩
  · by_cases hb : s.active = true
    · rw [StackState.murder_of_active s hb]
      exact ⟨rfl, rfl⟩
    · rw [StackState.murder_of_inactive s hb]
      have hb2 : s.active = false := by
        cases hq : s.active
        · rfl
        · exact absurd hq hb
      exact ⟨hb2, by rw [StackState.stack_saved, h2 hb2]; rfl⟩

/-! ## Byte-copy lemmas for C6 -/

theorem writeBytes_outside (bs : List Nat) : ∀ (mem : Nat → Nat) (addr a : Nat),
    (a < addr ∨ addr + bs.length ≤ a) → writeBytes mem addr bs a = mem a := by
  induction bs with
  | nil => intro mem addr a h; rfl
  | cons b bs ih =>
    intro mem addr a h
    have hne : a ≠ addr := by
      rcases h with h | h
      · omega
      · simp only [List.length_cons] at h; omega
    have h2 : a < addr + 1 ∨ (addr + 1) + bs.length ≤ a := by
      rcases h with h | h
      · left; omega
      · simp only [List.length_cons] at h; right; omega
    rw [writeBytes, ih _ _ _ h2, Function.update_noteq hne]

theorem writeBytes_getD (bs : List Nat) : ∀ (mem : Nat → Nat) (addr i : Nat),
    i < bs.length → writeBytes mem addr bs (addr + i) = bs.getD i 0 := by
  induction bs with
  | nil => intro mem addr i h; cases h
  | cons b bs ih =>
    intro mem addr i h
    cases i with
    | zero =>
      rw [Nat.add_zero, writeBytes,
        writeBytes_outside bs _ (addr + 1) addr (Or.inl (by omega)),
        Function.update_same]
      rfl
    | succ j =>
      rw [writeBytes]
      have ha : addr + (j + 1) = (addr + 1) + j := by omega
      have hj : j < bs.length := by simp only [List.length_cons] at h; omega
      rw [ha, ih _ _ _ hj]
      rfl

/-- The prev-recomputation loop is exactly "first chain entry whose
`stack_stop` is still above `stop`". -/
theorem findStackOwner_eq_find (chain : List StackState) (stop : Nat) :
    findStackOwner chain stop
      = chain.find? (fun o => decide (stop < o.stack_stop)) := by
  induction chain with
  | nil => rfl
  | cons o rest ih =>
    by_cases h : o.stack_stop ≤ stop
    · rw [findStackOwner, if_pos h, ih,
        List.find?_cons_of_neg _ (by simp; omega)]
    · rw [findStackOwner, if_neg h,
        List.find?_cons_of_pos _ (by simp; omega)]

/-- Witness for C9 at the freshly constructed (NotStarted) stack state. -/
theorem stack_bytes_lifecycle_invariant_witness :
    (StackState.initialS.started = false →
        StackState.initialS.stack_start = 0 ∧ StackState.initialS.stack_saved = 0)
    ∧ (StackState.initialS.active = false → StackState.initialS.stack_saved = 0)
    ∧ (StackState.initialS.set_inactive.active = false
        ∧ StackState.initialS.set_inactive.stack_saved = 0)
    ∧ (StackState.initialS.deactivate_and_free.active = false
        ∧ StackState.initialS.deactivate_and_free.stack_saved = 0)
    ∧ (StackState.initialS.murder_in_place.active = false
        ∧ StackState.initialS.murder_in_place.stack_saved = 0) :=
  stack_bytes_lifecycle_invariant StackState.initialS ReachableStack.initial

/-- **C6** — postcondition of stack restoration: `copy_heap_to_stack`
copies the saved heap bytes (when any) back onto the native stack at
`stack_start` (leaving all other memory untouched), frees the heap buffer
so the saved-byte count becomes zero, and recomputes the prev link to the
nearest `StackState` in the ownership chain (after the dying-current
skip) whose region still reaches above this coroutine's `stack_stop`
— every skipped entry satisfies `stack_stop ≤ s.stack_stop`, i.e. its
region lies entirely below; and when the saved-byte count is already
zero, no byte is copied at all and memory is unchanged. -/
theorem copy_heap_to_stack_restores_and_relinks (s : StackState)
    (chain : List StackState) (mem : Nat → Nat) :
    (s.stack_saved ≠ 0 →
      (∀ i, i < s.stack_saved →
        (s.copy_heap_to_stack chain mem).2.2 (s.stack_start + i) = s.stack_copy.getD i 0)
      ∧ (∀ a, a < s.stack_start ∨ s.stack_start + s.stack_saved ≤ a →
        (s.copy_heap_to_stack chain mem).2.2 a = mem a))
    ∧ (s.copy_heap_to_stack chain mem).1.stack_saved = 0
    ∧ (s.copy_heap_to_stack chain mem).1.stack_start = s.stack_start
    ∧ (s.copy_heap_to_stack chain mem).1.stack_stop = s.stack_stop
    ∧ (s.stack_saved = 0 →
        (s.copy_heap_to_stack chain mem).2.2 = mem
        ∧ (s.copy_heap_to_stack chain mem).1 = s)
    ∧ (s.copy_heap_to_stack chain mem).2.1
        = (skipDying chain).find? (fun o => decide (s.stack_stop < o.stack_stop))
    ∧ (∀ o, (s.copy_heap_to_stack chain mem).2.1 = some o → s.stack_stop < o.stack_stop)
    ∧ ((s.copy_heap_to_stack chain mem).2.1 = Option.none →
        ∀ o ∈ skipDying chain, o.stack_stop ≤ s.stack_stop) := by
  have hprev : (s.copy_heap_to_stack chain mem).2.1
      = (skipDying chain).find? (fun o => decide (s.stack_stop < o.stack_stop)) := by
    rw [StackState.copy_heap_to_stack_prev, findStackOwner_eq_find]
  refine ⟨?_, ?_, ?_, ?_, ?_, hprev, ?_, ?_⟩
  · intro hsv
    rw [StackState.copy_heap_to_stack_mem, if_pos hsv]
    constructor
    · intro i hi
      exact writeBytes_getD s.stack_copy mem s.stack_start i hi
    · intro a ha
      exact writeBytes_outside s.stack_copy mem s.stack_start a ha
  · rw [StackState.copy_heap_to_stack_fst]
    by_cases hsv : s.stack_saved ≠ 0
    · rw [if_pos hsv]
      rfl
    · rw [if_neg hsv]
      omega
  · rw [StackState.copy_heap_to_stack_fst]
    by_cases hsv : s.stack_saved ≠ 0
    · rw [if_pos hsv]
    · rw [if_neg hsv]
  · rw [StackState.copy_heap_to_stack_fst]
    by_cases hsv : s.stack_saved ≠ 0
    · rw [if_pos hsv]
    · rw [if_neg hsv]
  · intro hz
    constructor
    · rw [StackState.copy_heap_to_stack_mem, if_neg (by omega)]
    · rw [StackState.copy_heap_to_stack_fst, if_neg (by omega)]
  · intro o ho
    rw [hprev] at ho
    have := List.find?_some ho
    simpa using this
  · intro hnone o ho
    rw [hprev] at hnone
    have := List.find?_eq_none.mp hnone o ho
    simpa using this

/-- Witness for C6: a state with two saved bytes, restored over a chain
whose head is dying; the bytes land at the stack start, the copy is
freed, and the prev link skips the dying head and the lower region. -/
theorem copy_heap_to_stack_restores_and_relinks_witness :
    c6State.stack_saved ≠ 0
    ∧ (c6State.copy_heap_to_stack c6Chain (fun _ => 0)).2.2 (c6State.stack_start + 0)
        = c6State.stack_copy.getD 0 0
    ∧ (c6State.copy_heap_to_stack c6Chain (fun _ => 0)).1.stack_saved = 0
    ∧ (c6State.copy_heap_to_stack c6Chain (fun _ => 0)).2.1 = some (testStack 3 70) := by
  have H := copy_heap_to_stack_restores_and_relinks c6State c6Chain (fun _ => 0)
  refine ⟨by decide, (H.1 (by decide)).1 0 (by decide), H.2.1, ?_⟩
  rw [H.2.2.2.2.2.1]
  rfl

/-- If `self` occurs anywhere in the walked chain, the validation loop of
the parent setter stops with the cyclic-chain error. -/
theorem set_parent_loop_cyclic (env : GEnv) (self : GId) :
    ∀ (fuel : Nat) (np mg : Option GId), self ∈ parentChain env fuel np →
      set_parent_loop env self fuel np mg = Except.error GError.errCyclicParentChain := by
  intro fuel
  induction fuel with
  | zero =>
    intro np mg h
    cases np with
    | none => simp [parentChain] at h
    | some p => simp [parentChain] at h
  | succ n ih =>
    intro np mg h
    cases np with
    | none => simp [parentChain] at h
    | some p =>
      simp only [set_parent_loop]
      by_cases hp : p = self
      · rw [if_pos hp]
      · rw [if_neg hp]
        apply ih
        simp only [parentChain, List.mem_cons] at h
        rcases h with h1 | h2
        · exact absurd h1.symm hp
        · exact h2

/-- **C8** — parent-cycle rejection is atomic: when the proposed parent
`np` is `self` itself or one of its descendants (i.e. `self` occurs in
`np`'s parent chain), `UserGreenlet::parent` raises
`ValueError("cyclic parent chain")`.  The model returns mutations in the
environment, and the setter performs none before this throw (the only
assignment is the final `this->_parent = new_parent`), so the error
result leaves the parent tree exactly as it was. -/
theorem cyclic_parent_assignment_rejected (env : GEnv) (fuel : Nat) (self np : GId)
    (h : self ∈ parentChain env fuel (some np)) :
    set_parent env fuel self (some np) = Except.error GError.errCyclicParentChain := by
  have hl := set_parent_loop_cyclic env self fuel (some np) Option.none h
  unfold set_parent
  dsimp only
  rw [hl]

/-- Witness for C8: setting a greenlet's parent to itself is rejected. -/
theorem cyclic_parent_assignment_rejected_witness :
    (1 : GId) ∈ parentChain testEnv 5 (some 1)
    ∧ set_parent testEnv 5 1 (some 1) = Except.error GError.errCyclicParentChain :=
  ⟨by decide, cyclic_parent_assignment_rejected testEnv 5 1 1 (by decide)⟩

/-- **C3** — thread affinity is enforced before any stack mutation: when
the target's reachable main greenlet is absent, belongs to an exited
thread, or differs from the calling thread's main greenlet (or the
calling thread itself has exited), `g_switch` raises the
`greenlet.error` domain error to the caller — `check_switch_allowed`
throws before target resolution, `g_switchstack` and any `StackState`
operation — and every greenlet's `StackState` (and the current greenlet)
is exactly as before the call; only the pending switch arguments are
released. -/
theorem cross_thread_switch_rejected_before_stack_mutation (env : GEnv) (fuel : Nat)
    (self : GId)
    (h : findMainInLineage env fuel self = Option.none
       ∨ (∃ m, findMainInLineage env fuel self = some m ∧ env.thread_alive m = false)
       ∨ (∃ m, findMainInLineage env fuel self = some m ∧ m ≠ env.this_thread_main)
       ∨ env.thread_alive env.this_thread_main = false) :
    ∃ e env2, g_switch env fuel self = GSwitchOutcome.failed e env2
      ∧ e.isGreenletError = true
      ∧ (∀ g, (env2.get g).stack = (env.get g).stack)
      ∧ env2.current = env.current := by
  have hcheck : ∃ e, check_switch_allowed env fuel self = some e
      ∧ e.isGreenletError = true := by
    cases hfm : findMainInLineage env fuel self with
    | none =>
      refine ⟨GError.errGarbageCollected, ?_, rfl⟩
      unfold check_switch_allowed
      rw [hfm]
    | some m =>
      by_cases halive : env.thread_alive m = false
      · refine ⟨GError.errThreadExited, ?_, rfl⟩
        unfold check_switch_allowed
        rw [hfm]
        dsimp only
        rw [if_pos halive]
      · have hcond : env.this_thread_main ≠ m
            ∨ ((env.get self).main_greenlet.isSome ∧ env.this_thread_main ≠ m)
            ∨ env.thread_alive env.this_thread_main = false := by
          rcases h with h | ⟨m2, hm2, hal⟩ | ⟨m2, hm2, hne⟩ | h
          · rw [hfm] at h; cases h
          · rw [hfm] at hm2
            injection hm2 with he
            subst he
            exact absurd hal halive
          · rw [hfm] at hm2
            injection hm2 with he
            subst he
            exact Or.inl (Ne.symm hne)
          · exact Or.inr (Or.inr h)
        refine ⟨GError.errDifferentThread, ?_, rfl⟩
        unfold check_switch_allowed
        rw [hfm]
        dsimp only
        rw [if_neg halive, if_pos hcond]
  obtain ⟨e, hce, hge⟩ := hcheck
  refine ⟨e, env.setArgs self {}, ?_, hge, ?_, rfl⟩
  · unfold g_switch
    rw [hce]
  · intro g
    exact GEnv.get_setArgs_stack env self g {}

/-- Witness for C3: greenlet 8 of `testEnv` started on a thread whose
main greenlet (7) has exited; switching to it fails with a
`greenlet.error` and mutates no stack state. -/
theorem cross_thread_switch_rejected_before_stack_mutation_witness :
    (∃ m, findMainInLineage testEnv 5 8 = some m ∧ testEnv.thread_alive m = false)
    ∧ ∃ e env2, g_switch testEnv 5 8 = GSwitchOutcome.failed e env2
        ∧ e.isGreenletError = true
        ∧ (∀ g, (env2.get g).stack = (testEnv.get g).stack)
        ∧ env2.current = testEnv.current :=
  ⟨⟨7, rfl, rfl⟩,
   cross_thread_switch_rejected_before_stack_mutation testEnv 5 8
     (Or.inr (Or.inl ⟨7, rfl, rfl⟩))⟩

/-! ## Step lemmas for the target-resolution loop -/

theorem GEnv.moveArgs_def (env : GEnv) (s d : GId) :
    env.moveArgs s d = (env.setArgs s {}).setArgs d (env.get s).switch_args := rfl

theorem GEnv.moveArgs_get_dst_args (env : GEnv) (s d : GId) :
    ((env.moveArgs s d).get d).switch_args = (env.get s).switch_args := by
  rw [GEnv.moveArgs_def]
  simp

theorem gSwitchResolveLoop_active (env : GEnv) (self : GId) (fuel : Nat) (t : GId)
    (twm : Bool) (h : (env.get t).stack.active = true) :
    gSwitchResolveLoop env self (fuel + 1) (some t) twm
      = (if twm then env else env.moveArgs self t,
         some (SwitchResolution.switchstack t)) := by
  unfold gSwitchResolveLoop
  dsimp only
  rw [if_pos h]

theorem gSwitchResolveLoop_fresh (env : GEnv) (self : GId) (fuel : Nat) (t : GId)
    (twm : Bool) (hact : (env.get t).stack.active = false)
    (hst : (env.get t).stack.started = false) :
    gSwitchResolveLoop env self (fuel + 1) (some t) twm
      = (if twm then env else env.moveArgs self t,
         some (SwitchResolution.toBoot t)) := by
  unfold gSwitchResolveLoop
  dsimp only
  rw [if_neg (by simp [hact]), if_pos hst]

theorem gSwitchResolveLoop_dead (env : GEnv) (self : GId) (fuel : Nat) (t : GId)
    (twm : Bool) (hact : (env.get t).stack.active = false)
    (hst : (env.get t).stack.started = true) :
    gSwitchResolveLoop env self (fuel + 1) (some t) twm
      = gSwitchResolveLoop env self fuel ((env.get t).parent) false := by
  conv_lhs => unfold gSwitchResolveLoop
  dsimp only
  rw [if_neg (by simp [hact]), if_neg (by simp [hst])]

/-- **C2** — ancestor fallback: a switch whose target is Dead with an
Active parent behaves identically to switching directly to that parent:
the resolution loop skips the Dead target, transfers the caller's switch
arguments to the parent, and the whole `g_switch` computation — both the
failure and the success paths — coincides with the one for a direct
switch to the parent. -/
theorem dead_target_falls_back_to_parent (env : GEnv) (fuel : Nat) (t p : GId)
    (payload : SwitchingArgs)
    (hdead : env.deadG t = true)
    (hpar : (env.get t).parent = some p)
    (hpactive : (env.get p).stack.active = true)
    (hfm : findMainInLineage env fuel t = findMainInLineage env fuel p)
    (htargs : (env.get t).switch_args = ({} : SwitchingArgs))
    (hpargs : (env.get p).switch_args = ({} : SwitchingArgs))
    (hfuel : 2 ≤ fuel) :
    g_switch (env.setArgs t payload) fuel t = g_switch (env.setArgs p payload) fuel p := by
  have hdead2 : (env.get t).stack.started = true ∧ (env.get t).stack.active = false := by
    unfold GEnv.deadG at hdead
    constructor
    · cases hq : (env.get t).stack.started
      · rw [hq] at hdead; simp at hdead
      · rfl
    · cases hq : (env.get t).stack.active
      · rfl
      · rw [hq] at hdead; simp at hdead
  have hcheck_tp : check_switch_allowed env fuel t = check_switch_allowed env fuel p := by
    unfold check_switch_allowed
    rw [hfm]
    cases hm : findMainInLineage env fuel p with
    | none => rfl
    | some m =>
      dsimp only
      by_cases hal : env.thread_alive m = false
      · rw [if_pos hal, if_pos hal]
      · rw [if_neg hal, if_neg hal]
        by_cases hne : env.this_thread_main ≠ m
        · rw [if_pos (Or.inl hne), if_pos (Or.inl hne)]
        · by_cases halt : env.thread_alive env.this_thread_main = false
          · rw [if_pos (Or.inr (Or.inr halt)), if_pos (Or.inr (Or.inr halt))]
          · have hcT : ¬ (env.this_thread_main ≠ m
                ∨ ((env.get t).main_greenlet.isSome ∧ env.this_thread_main ≠ m)
                ∨ env.thread_alive env.this_thread_main = false) := by
              rintro (hx | ⟨_, hx⟩ | hx)
              · exact hne hx
              · exact hne hx
              · exact halt hx
            have hcP : ¬ (env.this_thread_main ≠ m
                ∨ ((env.get p).main_greenlet.isSome ∧ env.this_thread_main ≠ m)
                ∨ env.thread_alive env.this_thread_main = false) := by
              rintro (hx | ⟨_, hx⟩ | hx)
              · exact hne hx
              · exact hne hx
              · exact halt hx
            rw [if_neg hcT, if_neg hcP]
  have hchT : check_switch_allowed (env.setArgs t payload) fuel t
      = check_switch_allowed env fuel p := by
    rw [check_switch_allowed_eqShape env _ (eqShape_setArgs env t payload) fuel t,
      hcheck_tp]
  have hchP : check_switch_allowed (env.setArgs p payload) fuel p
      = check_switch_allowed env fuel p :=
    check_switch_allowed_eqShape env _ (eqShape_setArgs env p payload) fuel p
  obtain ⟨k, rfl⟩ : ∃ k, fuel = k + 2 := ⟨fuel - 2, by omega⟩
  have hLloop : gSwitchResolveLoop (env.setArgs t payload) t (k + 2) (some t) true
      = (env.setArgs p payload, some (SwitchResolution.switchstack p)) := by
    have hs1 := gSwitchResolveLoop_dead (env.setArgs t payload) t (k + 1) t true
      (by rw [GEnv.get_setArgs_stack]; exact hdead2.2)
      (by rw [GEnv.get_setArgs_stack]; exact hdead2.1)
    have hp2 : ((env.setArgs t payload).get t).parent = some p := by
      rw [GEnv.get_setArgs_parent, hpar]
    rw [show k + 2 = (k + 1) + 1 from rfl, hs1, hp2]
    have hs2 := gSwitchResolveLoop_active (env.setArgs t payload) t k p false
      (by rw [GEnv.get_setArgs_stack]; exact hpactive)
    rw [hs2]
    have hm : (env.setArgs t payload).moveArgs t p = env.setArgs p payload := by
      rw [GEnv.moveArgs_def]
      have ha : ((env.setArgs t payload).get t).switch_args = payload := by simp
      rw [ha, GEnv.setArgs_setArgs, GEnv.setArgs_of_eq env t {} htargs]
    rw [if_neg (by simp), hm]
  have hRloop : gSwitchResolveLoop (env.setArgs p payload) p (k + 2) (some p) true
      = (env.setArgs p payload, some (SwitchResolution.switchstack p)) := by
    have hs1 := gSwitchResolveLoop_active (env.setArgs p payload) p (k + 1) p true
      (by rw [GEnv.get_setArgs_stack]; exact hpactive)
    rw [show k + 2 = (k + 1) + 1 from rfl, hs1, if_pos rfl]
  unfold g_switch
  rw [hchT, hchP]
  cases hc : check_switch_allowed env (k + 2) p with
  | some e =>
    dsimp only
    rw [GEnv.setArgs_setArgs, GEnv.setArgs_setArgs,
      GEnv.setArgs_of_eq env t {} htargs, GEnv.setArgs_of_eq env p {} hpargs]
  | none =>
    dsimp only
    rw [hLloop, hRloop]

/-- Witness for C2: in `testEnv`, switching to the dead greenlet 3 is the
same computation as switching to its active parent 2. -/
theorem dead_target_falls_back_to_parent_witness :
    testEnv.deadG 3 = true
    ∧ (testEnv.get 3).parent = some 2
    ∧ (testEnv.get 2).stack.active = true
    ∧ g_switch (testEnv.setArgs 3 { args := some (PyObj.tuple [PyObj.intV 7]) }) 5 3
      = g_switch (testEnv.setArgs 2 { args := some (PyObj.tuple [PyObj.intV 7]) }) 5 2 :=
  ⟨by decide, rfl, by decide,
   dead_target_falls_back_to_parent testEnv 5 3 2
     { args := some (PyObj.tuple [PyObj.intV 7]) }
     (by decide) rfl (by decide) rfl rfl rfl (by decide)⟩

@[simp]
theorem GEnv.moveArgs_current (env : GEnv) (s d : GId) :
    (env.moveArgs s d).current = env.current := rfl

@[simp]
theorem GEnv.moveArgs_tracefunc (env : GEnv) (s d : GId) :
    (env.moveArgs s d).tracefunc = env.tracefunc := rfl

@[simp]
theorem GEnv.moveArgs_pending (env : GEnv) (s d : GId) :
    (env.moveArgs s d).pending_exc = env.pending_exc := rfl

/-- A resolution that ends in `switchstack r`, starting below the first
iteration (`targetWasMe = false`), returns the environment with the
caller's arguments moved to `r`. -/
theorem gSwitchResolveLoop_switchstack_env :
    ∀ (fuel : Nat) (env : GEnv) (self : GId) (tgt : Option GId) (envR : GEnv) (r : GId),
      gSwitchResolveLoop env self fuel tgt false
          = (envR, some (SwitchResolution.switchstack r))
      → envR = env.moveArgs self r := by
  intro fuel
  induction fuel with
  | zero =>
    intro env self tgt envR r h
    simp [gSwitchResolveLoop] at h
  | succ n ih =>
    intro env self tgt envR r h
    cases tgt with
    | none => simp [gSwitchResolveLoop] at h
    | some t =>
      by_cases hact : (env.get t).stack.active = true
      · rw [gSwitchResolveLoop_active env self n t false hact] at h
        simp only [Bool.false_eq_true, if_false, Prod.mk.injEq, Option.some.injEq,
          SwitchResolution.switchstack.injEq] at h
        obtain ⟨he, hr⟩ := h
        rw [← he, hr]
      · have hact2 : (env.get t).stack.active = false := by
          revert hact
          cases (env.get t).stack.active <;> simp
        by_cases hst : (env.get t).stack.started = false
        · rw [gSwitchResolveLoop_fresh env self n t false hact2 hst] at h
          simp at h
        · have hst2 : (env.get t).stack.started = true := by
            revert hst
            cases (env.get t).stack.started <;> simp
          rw [gSwitchResolveLoop_dead env self n t false hact2 hst2] at h
          exact ih env self _ envR r h

/-- Characterization of a full resolution that ends in `switchstack r`:
either the target itself was already active (environment untouched) or
the arguments were moved to the resolved target. -/
theorem gSwitchResolveLoop_top_characterization (env : GEnv) (self : GId) (fuel : Nat)
    (envR : GEnv) (r : GId)
    (h : gSwitchResolveLoop env self (fuel + 1) (some self) true
        = (envR, some (SwitchResolution.switchstack r))) :
    (envR = env ∧ r = self) ∨ envR = env.moveArgs self r := by
  by_cases hact : (env.get self).stack.active = true
  · rw [gSwitchResolveLoop_active env self fuel self true hact] at h
    simp only [if_true, Prod.mk.injEq, Option.some.injEq,
      SwitchResolution.switchstack.injEq] at h
    exact Or.inl ⟨h.1.symm, h.2.symm⟩
  · have hact2 : (env.get self).stack.active = false := by
      revert hact
      cases (env.get self).stack.active <;> simp
    by_cases hst : (env.get self).stack.started = false
    · rw [gSwitchResolveLoop_fresh env self fuel self true hact2 hst] at h
      simp at h
    · have hst2 : (env.get self).stack.started = true := by
        revert hst
        cases (env.get self).stack.started <;> simp
      rw [gSwitchResolveLoop_dead env self fuel self true hact2 hst2] at h
      exact Or.inr (gSwitchResolveLoop_switchstack_env fuel env self _ envR r h)

theorem g_switch_finish_no_trace_no_exc (env : GEnv) (self : GId)
    (htrace : env.tracefunc = Option.none) (hexc : env.pending_exc = Option.none) :
    g_switch_finish env self
      = FinishResult.finished
          (if (env.get self).switch_args.isSet then
            (packageSwitchingArgs (env.get self).switch_args).1
          else Option.none)
          (env.setArgs self {}) := by
  have h1 : (env.setArgs self {}).tracefunc = Option.none := by
    rw [GEnv.setArgs_tracefunc, htrace]
  have h2 : (env.setArgs self {}).pending_exc = Option.none := by
    rw [GEnv.setArgs_pending, hexc]
  unfold g_switch_finish
  dsimp only
  rw [h1, h2]

theorem g_switch_finish_no_trace_exc (env : GEnv) (self : GId) (e : PyExc)
    (htrace : env.tracefunc = Option.none) (hexc : env.pending_exc = some e) :
    g_switch_finish env self
      = FinishResult.raisedF (GError.raisedExc e) (env.setArgs self {}) := by
  have h1 : (env.setArgs self {}).tracefunc = Option.none := by
    rw [GEnv.setArgs_tracefunc, htrace]
  have h2 : (env.setArgs self {}).pending_exc = some e := by
    rw [GEnv.setArgs_pending, hexc]
  unfold g_switch_finish
  dsimp only
  rw [h1, h2, GEnv.setArgs_setArgs]

/-- **C5 counterexample** — the claim fails on the code: in `testEnv` the
switch target 3 is Dead, yet `g_switch` does not degenerate to returning
the arguments to the caller (greenlet 0): resolution falls through to
the Dead target's Active parent 2, which is *not* the caller, and the
call performs a real stack pivot into it (`GSwitchOutcome.pivot`),
transferring control and the payload there. -/
theorem dead_target_with_remote_live_ancestor_pivots :
    testEnv.deadG 3 = true
    ∧ testEnv.current = 0
    ∧ ∃ env2,
        g_switch (testEnv.setArgs 3 { args := some (PyObj.tuple [PyObj.intV 7]) }) 5 3
          = GSwitchOutcome.pivot 2 env2
        ∧ env2.current = 2 := by
  exact ⟨by decide, rfl, ⟨_, rfl, rfl⟩⟩

/-- **C5 amended** — degenerate switch: for every switch call whose
target equals the currently running coroutine, or whose target is Dead
and whose resolution through the parent chain lands on the currently
running coroutine, the call performs no stack pivot and no state change
other than consuming the payload — it returns the packaged `args` to the
caller, or raises the pending exception when `args` encodes a throw. -/
theorem degenerate_switch_returns_args_when_resolved_to_current (env : GEnv)
    (fuel : Nat) (tgt : GId) (payload : SwitchingArgs)
    (hres : ∃ envR, gSwitchResolveLoop (env.setArgs tgt payload) tgt (fuel + 1)
        (some tgt) true = (envR, some (SwitchResolution.switchstack env.current)))
    (hcheck : check_switch_allowed env (fuel + 1) tgt = Option.none)
    (htrace : env.tracefunc = Option.none) :
    (payload.isSet = true → env.pending_exc = Option.none →
      ∃ env2, g_switch (env.setArgs tgt payload) (fuel + 1) tgt
        = GSwitchOutcome.degenerate (packageSwitchingArgs payload).1 env2
        ∧ (∀ g, (env2.get g).stack = (env.get g).stack)
        ∧ env2.current = env.current)
    ∧ (∀ e, payload.isSet = false → env.pending_exc = some e →
      ∃ env2, g_switch (env.setArgs tgt payload) (fuel + 1) tgt
        = GSwitchOutcome.failed (GError.raisedExc e) env2
        ∧ (∀ g, (env2.get g).stack = (env.get g).stack)
        ∧ env2.current = env.current) := by
  obtain ⟨envR, hres⟩ := hres
  have hshape : EqShape env envR := by
    rcases gSwitchResolveLoop_top_characterization (env.setArgs tgt payload) tgt fuel
        envR env.current hres with ⟨he, _⟩ | he
    · rw [he]
      exact eqShape_setArgs env tgt payload
    · rw [he]
      exact EqShape.trans (eqShape_setArgs env tgt payload)
        (eqShape_moveArgs (env.setArgs tgt payload) tgt env.current)
  have hargsR : (envR.get env.current).switch_args = payload := by
    rcases gSwitchResolveLoop_top_characterization (env.setArgs tgt payload) tgt fuel
        envR env.current hres with ⟨he, hr⟩ | he
    · rw [he, hr]
      simp
    · rw [he, GEnv.moveArgs_get_dst_args]
      simp
  have hcurR : envR.current = env.current := by
    rcases gSwitchResolveLoop_top_characterization (env.setArgs tgt payload) tgt fuel
        envR env.current hres with ⟨he, _⟩ | he
    · rw [he]; rfl
    · rw [he]; rfl
  have htraceR : envR.tracefunc = Option.none := by
    rcases gSwitchResolveLoop_top_characterization (env.setArgs tgt payload) tgt fuel
        envR env.current hres with ⟨he, _⟩ | he
    · rw [he, GEnv.setArgs_tracefunc, htrace]
    · rw [he, GEnv.moveArgs_tracefunc, GEnv.setArgs_tracefunc, htrace]
  have hpendR : envR.pending_exc = env.pending_exc := by
    rcases gSwitchResolveLoop_top_characterization (env.setArgs tgt payload) tgt fuel
        envR env.current hres with ⟨he, _⟩ | he
    · rw [he]; rfl
    · rw [he]; rfl
  have hchD : check_switch_allowed (env.setArgs tgt payload) (fuel + 1) tgt
      = Option.none := by
    rw [check_switch_allowed_eqShape env _ (eqShape_setArgs env tgt payload), hcheck]
  have hstacksR : ∀ g, (envR.get g).stack = (env.get g).stack := fun g => (hshape.2.2 g).2.1
  constructor
  · intro hset hexc
    refine ⟨envR.setArgs env.current {}, ?_, ?_, ?_⟩
    · unfold g_switch
      rw [hchD]
      dsimp only
      rw [hres]
      dsimp only
      rw [if_pos hcurR,
        g_switch_finish_no_trace_no_exc envR env.current htraceR (hpendR.trans hexc),
        hargsR, if_pos hset]
    · intro g
      rw [GEnv.get_setArgs_stack]
      exact hstacksR g
    · rw [GEnv.setArgs_current, hcurR]
  · intro e hset hexc
    refine ⟨envR.setArgs env.current {}, ?_, ?_, ?_⟩
    · unfold g_switch
      rw [hchD]
      dsimp only
      rw [hres]
      dsimp only
      rw [if_pos hcurR,
        g_switch_finish_no_trace_exc envR env.current e htraceR (hpendR.trans hexc)]
    · intro g
      rw [GEnv.get_setArgs_stack]
      exact hstacksR g
    · rw [GEnv.setArgs_current, hcurR]

/-- Witness for the amended C5: switching to the dead greenlet 4 of
`testEnv`, whose parent is the current main greenlet 0, degenerates to
returning the packaged payload with no stack change. -/
theorem degenerate_switch_returns_args_witness :
    testEnv.deadG 4 = true
    ∧ ∃ env2,
        g_switch (testEnv.setArgs 4 { args := some (PyObj.tuple [PyObj.intV 3]) }) 5 4
          = GSwitchOutcome.degenerate
              (packageSwitchingArgs { args := some (PyObj.tuple [PyObj.intV 3]) }).1 env2
          ∧ (∀ g, (env2.get g).stack = (testEnv.get g).stack)
          ∧ env2.current = testEnv.current := by
  refine ⟨by decide, ?_⟩
  have H := degenerate_switch_returns_args_when_resolved_to_current testEnv 4 4
    { args := some (PyObj.tuple [PyObj.intV 3]) } ⟨_, rfl⟩ rfl rfl
  exact H.1 rfl rfl

@[simp]
theorem GEnv.get_setCurrent (env : GEnv) (c x : GId) :
    (({ env with current := c } : GEnv)).get x = env.get x := rfl

@[simp]
theorem GEnv.get_mk (gl : GId → Greenlet) (c t : GId) (al : GId → Bool)
    (p : Option PyExc) (tf : Option PyObj) (x : GId) :
    (GEnv.mk gl c t al p tf).get x = gl x := rfl

@[simp]
theorem GEnv.glets_setArgs_self (env : GEnv) (g : GId) (a : SwitchingArgs) :
    (env.setArgs g a).glets g = { env.get g with switch_args := a } :=
  GEnv.get_setArgs_self env g a

/-- A `green_switch` call on an Active greenlet that is not the current
one pivots into it, depositing the packed call arguments. -/
theorem green_switch_send_pivots (env : GEnv) (fuel : Nat) (tgt : GId) (args : PyObj)
    (kwargs : Option PyObj)
    (hact : (env.get tgt).stack.active = true)
    (hne : ¬ env.current = tgt)
    (hcheck : check_switch_allowed env (fuel + 1) tgt = Option.none) :
    green_switch_send env (fuel + 1) tgt args kwargs
      = GSwitchOutcome.pivot tgt
          { env.setArgs tgt { args := some args, kwargs := kwargs } with current := tgt } := by
  unfold green_switch_send g_switch
  rw [check_switch_allowed_eqShape env _ (eqShape_setArgs env tgt _) (fuel + 1) tgt,
    hcheck]
  dsimp only
  rw [gSwitchResolveLoop_active _ tgt fuel tgt true
    (by rw [GEnv.get_setArgs_stack]; exact hact)]
  have hif : (if (true : Bool) = true then
        env.setArgs tgt { args := some args, kwargs := kwargs }
      else (env.setArgs tgt { args := some args, kwargs := kwargs }).moveArgs tgt tgt)
      = env.setArgs tgt { args := some args, kwargs := kwargs } := if_pos rfl
  rw [hif]
  dsimp only
  rw [if_neg (by simp only [GEnv.setArgs_current]; exact hne)]

/-- Arrival into a greenlet whose pending payload is a 1-tuple: its
suspended `green_switch` call returns the tuple's element. -/
theorem green_switch_receive_delivers (env : GEnv) (self : GId) (x : PyObj)
    (hargs : (env.get self).switch_args
      = { args := some (PyObj.tuple [x]), kwargs := Option.none })
    (htrace : env.tracefunc = Option.none)
    (hexc : env.pending_exc = Option.none) :
    green_switch_receive env self
      = FinishResult.finished (some x) (env.setArgs self {}) := by
  unfold green_switch_receive
  rw [g_switch_finish_no_trace_no_exc env self htrace hexc, hargs]
  rfl

/-- **C1** — round-trip switch delivery: with coroutines `A` (current) and
`B` both Active on the calling thread, `A`'s `switch` call on `B` with
payload `w` pivots into `B` and delivers `w` there; when `B`'s next action
is to switch back to `A` with value `v`, control pivots back and `A`'s
suspended `switch` call returns exactly `v`, as produced by
`g_switch_finish` consuming the arriving `SwitchingArgs`. -/
theorem roundtrip_switch_delivers_value (env : GEnv) (fuel : Nat) (A B : GId)
    (v w : PyObj)
    (hAB : A ≠ B)
    (hcur : env.current = A)
    (hAactive : (env.get A).stack.active = true)
    (hBactive : (env.get B).stack.active = true)
    (hcheckA : check_switch_allowed env (fuel + 1) A = Option.none)
    (hcheckB : check_switch_allowed env (fuel + 1) B = Option.none)
    (htrace : env.tracefunc = Option.none)
    (hexc : env.pending_exc = Option.none) :
    ∃ env1 env2 env3 env4,
      green_switch_send env (fuel + 1) B (PyObj.tuple [w]) Option.none
        = GSwitchOutcome.pivot B env1
      ∧ green_switch_receive env1 B = FinishResult.finished (some w) env2
      ∧ green_switch_send env2 (fuel + 1) A (PyObj.tuple [v]) Option.none
        = GSwitchOutcome.pivot A env3
      ∧ green_switch_receive env3 A = FinishResult.finished (some v) env4 := by
  have hsend1 := green_switch_send_pivots env fuel B (PyObj.tuple [w]) Option.none
    hBactive (by rw [hcur]; exact hAB) hcheckB
  have hshape1 : EqShape env
      ({ env.setArgs B { args := some (PyObj.tuple [w]), kwargs := Option.none } with
          current := B } : GEnv) :=
    EqShape.trans (eqShape_setArgs env B _)
      (eqShape_setCurrent (env.setArgs B _) B)
  have hrecv1 := green_switch_receive_delivers
    ({ env.setArgs B { args := some (PyObj.tuple [w]), kwargs := Option.none } with
        current := B } : GEnv) B w (by simp) htrace hexc
  have hshape2 : EqShape env
      ((({ env.setArgs B { args := some (PyObj.tuple [w]), kwargs := Option.none } with
          current := B } : GEnv)).setArgs B {}) :=
    EqShape.trans hshape1 (eqShape_setArgs _ B {})
  have hact2 : (((({ env.setArgs B
        { args := some (PyObj.tuple [w]), kwargs := Option.none } with
        current := B } : GEnv)).setArgs B {}).get A).stack.active = true := by
    rw [(hshape2.2.2 A).2.1]
    exact hAactive
  have hcheck2 : check_switch_allowed
      ((({ env.setArgs B { args := some (PyObj.tuple [w]), kwargs := Option.none } with
          current := B } : GEnv)).setArgs B {}) (fuel + 1) A = Option.none := by
    rw [check_switch_allowed_eqShape env _ hshape2 (fuel + 1) A]
    exact hcheckA
  have hsend2 := green_switch_send_pivots
    ((({ env.setArgs B { args := some (PyObj.tuple [w]), kwargs := Option.none } with
        current := B } : GEnv)).setArgs B {}) fuel A (PyObj.tuple [v]) Option.none
    hact2 (fun h => hAB h.symm) hcheck2
  have hrecv2 := green_switch_receive_delivers
    ({ ((({ env.setArgs B { args := some (PyObj.tuple [w]), kwargs := Option.none } with
        current := B } : GEnv)).setArgs B {}).setArgs A
          { args := some (PyObj.tuple [v]), kwargs := Option.none } with
        current := A } : GEnv) A v (by simp) htrace hexc
  exact ⟨_, _, _, _, hsend1, hrecv1, hsend2, hrecv2⟩

/-- Witness for C1 in `testEnv`: main (0) switches 11 to greenlet 1,
greenlet 1 switches 22 back; main's switch call returns 22. -/
theorem roundtrip_switch_delivers_value_witness :
    ∃ env1 env2 env3 env4,
      green_switch_send testEnv 5 1 (PyObj.tuple [PyObj.intV 11]) Option.none
        = GSwitchOutcome.pivot 1 env1
      ∧ green_switch_receive env1 1 = FinishResult.finished (some (PyObj.intV 11)) env2
      ∧ green_switch_send env2 5 0 (PyObj.tuple [PyObj.intV 22]) Option.none
        = GSwitchOutcome.pivot 0 env3
      ∧ green_switch_receive env3 0
        = FinishResult.finished (some (PyObj.intV 22)) env4 :=
  roundtrip_switch_delivers_value testEnv 4 0 1 (PyObj.intV 22) (PyObj.intV 11)
    (by decide) rfl rfl rfl rfl rfl rfl rfl

/-- The resolution loop only ever chooses to bootstrap a greenlet that is
(at decision time) not yet started. -/
theorem gSwitchResolveLoop_boot_not_started :
    ∀ (fuel : Nat) (env : GEnv) (self : GId) (tgt : Option GId) (twm : Bool)
      (envR : GEnv) (r : GId),
      gSwitchResolveLoop env self fuel tgt twm
          = (envR, some (SwitchResolution.toBoot r))
      → (env.get r).stack.started = false := by
  intro fuel
  induction fuel with
  | zero =>
    intro env self tgt twm envR r h
    simp [gSwitchResolveLoop] at h
  | succ n ih =>
    intro env self tgt twm envR r h
    cases tgt with
    | none => simp [gSwitchResolveLoop] at h
    | some t =>
      by_cases hact : (env.get t).stack.active = true
      · rw [gSwitchResolveLoop_active env self n t twm hact] at h
        simp at h
      · have hact2 : (env.get t).stack.active = false := by
          revert hact
          cases (env.get t).stack.active <;> simp
        by_cases hst : (env.get t).stack.started = false
        · rw [gSwitchResolveLoop_fresh env self n t twm hact2 hst] at h
          simp only [Prod.mk.injEq, Option.some.injEq,
            SwitchResolution.toBoot.injEq] at h
          rw [← h.2]
          exact hst
        · have hst2 : (env.get t).stack.started = true := by
            revert hst
            cases (env.get t).stack.started <;> simp
          rw [gSwitchResolveLoop_dead env self n t twm hact2 hst2] at h
          exact ih env self _ false envR r h

/-- **C4** — bootstrap happens exactly once: when resolving the `run`
attribute during a first switch-in executes arbitrary code (`runAttr`)
that itself starts the coroutine, `g_initialstub` re-checks the state,
restores the captured pending switch arguments, and signals a retry
(`GreenletStartedWhileInPython`) instead of invoking the entry point; the
retried resolution then takes the ordinary-resume path (`switchstack`)
for the now-Active coroutine; and in general the resolution loop only
ever selects the bootstrap path for a coroutine that is still NotStarted
— so a started coroutine's entry point is never invoked again. -/
theorem bootstrap_retries_as_resume_when_started_concurrently (env : GEnv) (fuel : Nat)
    (self : GId) (mark : Nat) (runAttr : GEnv → GEnv × Option PyObj) (run : PyObj)
    (hrun : (runAttr env).2 = some run)
    (hcheck : check_switch_allowed (runAttr env).1 fuel self = Option.none)
    (hstarted : ((runAttr env).1.get self).stack.started = true)
    (hactive : ((runAttr env).1.get self).stack.active = true) :
    g_initialstub env fuel self mark runAttr
      = InitialstubOutcome.retryStarted
          ((runAttr env).1.setArgs self (env.get self).switch_args)
    ∧ ((((runAttr env).1.setArgs self (env.get self).switch_args).get self).switch_args
        = (env.get self).switch_args)
    ∧ (∀ e r, g_initialstub env fuel self mark runAttr ≠ InitialstubOutcome.enterNew e r)
    ∧ (gSwitchResolveLoop ((runAttr env).1.setArgs self (env.get self).switch_args) self
        (fuel + 1) (some self) true).2 = some (SwitchResolution.switchstack self)
    ∧ (∀ (fl : Nat) (e : GEnv) (s2 : GId) (t : Option GId) (tw : Bool)
          (envR : GEnv) (r : GId),
        gSwitchResolveLoop e s2 fl t tw = (envR, some (SwitchResolution.toBoot r))
        → (e.get r).stack.started = false) := by
  have hmain : g_initialstub env fuel self mark runAttr
      = InitialstubOutcome.retryStarted
          ((runAttr env).1.setArgs self (env.get self).switch_args) := by
    unfold g_initialstub
    dsimp only
    rw [hrun]
    dsimp only
    rw [hcheck]
    dsimp only
    rw [if_pos hstarted]
  refine ⟨hmain, by simp, ?_, ?_,
    fun fl e s2 t tw envR r h =>
      gSwitchResolveLoop_boot_not_started fl e s2 t tw envR r h⟩
  · intro e r h
    rw [hmain] at h
    simp at h
  · rw [gSwitchResolveLoop_active _ self fuel self true
      (by rw [GEnv.get_setArgs_stack]; exact hactive)]

/-- Witness for C4: `testRunAttr` starts greenlet 5 while resolving its
`run` attribute; the bootstrap signals a retry with the arguments
restored, and the retried resolution resumes it instead. -/
theorem bootstrap_retries_as_resume_witness :
    (testRunAttr testEnv).2 = some (PyObj.strV "run")
    ∧ g_initialstub testEnv 5 5 10 testRunAttr
        = InitialstubOutcome.retryStarted
            ((testRunAttr testEnv).1.setArgs 5 (testEnv.get 5).switch_args)
    ∧ (gSwitchResolveLoop ((testRunAttr testEnv).1.setArgs 5 (testEnv.get 5).switch_args)
        5 6 (some 5) true).2 = some (SwitchResolution.switchstack 5) := by
  have H := bootstrap_retries_as_resume_when_started_concurrently testEnv 5 5 10
    testRunAttr (PyObj.strV "run") rfl rfl rfl rfl
  exact ⟨rfl, H.1, H.2.2.2.1⟩

theorem findMainInLineage_started (env : GEnv) (fuel : Nat) (g : GId)
    (hst : (env.get g).stack.started = true) :
    findMainInLineage env (fuel + 1) g
      = if (env.get g).is_main then some g else (env.get g).main_greenlet := by
  unfold findMainInLineage
  dsimp only
  by_cases him : (env.get g).is_main = true
  · rw [if_pos him, if_pos him]
  · rw [if_neg him, if_neg him, if_pos hst]

theorem check_switch_allowed_started_ok (env : GEnv) (fuel : Nat) (g : GId)
    (hst : (env.get g).stack.started = true)
    (hm : (if (env.get g).is_main then some g else (env.get g).main_greenlet)
        = some env.this_thread_main)
    (halive : env.thread_alive env.this_thread_main = true) :
    check_switch_allowed env (fuel + 1) g = Option.none := by
  unfold check_switch_allowed
  rw [findMainInLineage_started env fuel g hst, hm]
  dsimp only
  rw [if_neg (by simp [halive])]
  rw [if_neg ?hc]
  case hc =>
    rintro (hx | ⟨-, hx⟩ | hx)
    · exact hx rfl
    · exact hx rfl
    · rw [halive] at hx
      cases hx

/-- `g_switch` on an Active, non-current, switch-allowed greenlet
performs the stack pivot into it. -/
theorem g_switch_pivots (env : GEnv) (fuel : Nat) (tgt : GId)
    (hact : (env.get tgt).stack.active = true)
    (hne : ¬ env.current = tgt)
    (hcheck : check_switch_allowed env (fuel + 1) tgt = Option.none) :
    g_switch env (fuel + 1) tgt
      = GSwitchOutcome.pivot tgt ({ env with current := tgt }) := by
  unfold g_switch
  rw [hcheck]
  dsimp only
  rw [gSwitchResolveLoop_active env tgt fuel tgt true hact]
  have hif : (if (true : Bool) = true then env else env.moveArgs tgt tgt) = env :=
    if_pos rfl
  rw [hif]
  dsimp only
  rw [if_neg hne]

/-- **C7** — cooperative termination: when a coroutine's entry point
exits with the exit marker (`GreenletExit`) left uncaught (`runResult`
NULL, `GreenletExit` pending), the coroutine transitions to Dead
(`set_inactive` — no longer active, still started) and the exception's
value (or `None` when it carries no value) is handed to its live parent
as a normal, non-error payload (the error indicator is cleared), after
which control pivots to that parent; an ordinary unhandled exception is
likewise forwarded — as an exception (empty `SwitchingArgs`, error
indicator still set) — to that parent. -/
theorem uncaught_exit_forwards_value_to_live_ancestor (env : GEnv) (fuel : Nat)
    (self p : GId) (runResult : Option PyObj)
    (hcur : env.current = self)
    (hpar : (env.get self).parent = some p)
    (hps : p ≠ self)
    (hpactive : (env.get p).stack.active = true)
    (hpstarted : (env.get p).stack.started = true)
    (hpmain : (if (env.get p).is_main then some p else (env.get p).main_greenlet)
        = some env.this_thread_main)
    (halive : env.thread_alive env.this_thread_main = true)
    (hselfstarted : (env.get self).stack.started = true)
    (hselfargs : (env.get self).switch_args = ({} : SwitchingArgs)) :
    ∃ env2,
      inner_bootstrap_finish env (fuel + 2) self runResult = GSwitchOutcome.pivot p env2
      ∧ (env2.get self).stack.active = false
      ∧ (env2.get self).stack.started = true
      ∧ (env2.get p).switch_args
          = { args := (g_handle_exit runResult env.pending_exc).1, kwargs := Option.none }
      ∧ env2.pending_exc = (g_handle_exit runResult env.pending_exc).2
      ∧ (∀ val, runResult = Option.none
          → env.pending_exc = some (PyExc.greenletExit val)
          → (g_handle_exit runResult env.pending_exc).1 = some (val.getD PyObj.noneV)
            ∧ (g_handle_exit runResult env.pending_exc).2 = Option.none)
      ∧ (∀ e, runResult = Option.none → env.pending_exc = some (PyExc.otherExc e)
          → (g_handle_exit runResult env.pending_exc).1 = Option.none
            ∧ (g_handle_exit runResult env.pending_exc).2 = some (PyExc.otherExc e)) := by
  have hcond : ¬ (runResult.isNone = true ∧ matchesGreenletExit env.pending_exc = true
      ∧ (env.get self).switch_args.isSet = true) := by
    rintro ⟨-, -, h3⟩
    rw [hselfargs] at h3
    exact absurd h3 (by decide)
  have hpar3 : (((({ env with
        pending_exc := (g_handle_exit runResult env.pending_exc).2 } : GEnv).update
        self (fun gl => { gl with stack := gl.stack.set_inactive })).get self).parent)
      = some p := by
    simp [GEnv.get, GEnv.update]
    exact hpar
  have hget4p : ((((({ env with
        pending_exc := (g_handle_exit runResult env.pending_exc).2 } : GEnv).update
        self (fun gl => { gl with stack := gl.stack.set_inactive })).setArgs p
        { args := (g_handle_exit runResult env.pending_exc).1,
          kwargs := Option.none }).get p).stack)
      = (env.get p).stack := by
    rw [GEnv.get_setArgs_stack, GEnv.get_update_ne _ _ _ _ hps]
    rfl
  have hmain4 : ((((({ env with
        pending_exc := (g_handle_exit runResult env.pending_exc).2 } : GEnv).update
        self (fun gl => { gl with stack := gl.stack.set_inactive })).setArgs p
        { args := (g_handle_exit runResult env.pending_exc).1,
          kwargs := Option.none }).get p).main_greenlet)
      = (env.get p).main_greenlet := by
    rw [GEnv.get_setArgs_main, GEnv.get_update_ne _ _ _ _ hps]
    rfl
  have hisMain4 : ((((({ env with
        pending_exc := (g_handle_exit runResult env.pending_exc).2 } : GEnv).update
        self (fun gl => { gl with stack := gl.stack.set_inactive })).setArgs p
        { args := (g_handle_exit runResult env.pending_exc).1,
          kwargs := Option.none }).get p).is_main)
      = (env.get p).is_main := by
    rw [GEnv.get_setArgs_isMain, GEnv.get_update_ne _ _ _ _ hps]
    rfl
  have hcheck4 : check_switch_allowed
      ((({ env with
        pending_exc := (g_handle_exit runResult env.pending_exc).2 } : GEnv).update
        self (fun gl => { gl with stack := gl.stack.set_inactive })).setArgs p
        { args := (g_handle_exit runResult env.pending_exc).1,
          kwargs := Option.none }) (fuel + 1) p = Option.none := by
    apply check_switch_allowed_started_ok
    · rw [hget4p]
      exact hpstarted
    · rw [hmain4, hisMain4]
      exact hpmain
    · exact halive
  have hne4 : ¬ ((({ env with
        pending_exc := (g_handle_exit runResult env.pending_exc).2 } : GEnv).update
        self (fun gl => { gl with stack := gl.stack.set_inactive })).setArgs p
        { args := (g_handle_exit runResult env.pending_exc).1,
          kwargs := Option.none }).current = p := by
    intro h
    rw [GEnv.setArgs_current, GEnv.update_current] at h
    exact hps (by rw [← h, hcur])
  refine ⟨{ ((({ env with
      pending_exc := (g_handle_exit runResult env.pending_exc).2 } : GEnv).update
      self (fun gl => { gl with stack := gl.stack.set_inactive })).setArgs p
      { args := (g_handle_exit runResult env.pending_exc).1, kwargs := Option.none }) with
      current := p }, ?_, ?_, ?_, ?_, ?_, ?_, ?_⟩
  · unfold inner_bootstrap_finish
    dsimp only
    rw [if_neg hcond, GEnv.setArgs_of_eq env self {} hselfargs, hpar3]
    conv_lhs => unfold exit_forward
    dsimp only
    rw [g_switch_pivots _ fuel p (by rw [hget4p]; exact hpactive) hne4 hcheck4]
  · rw [GEnv.get_setCurrent, GEnv.get_setArgs_stack, GEnv.get_update_self]
    dsimp only
    rw [StackState.set_inactive_eq]
    rfl
  · rw [GEnv.get_setCurrent, GEnv.get_setArgs_stack, GEnv.get_update_self]
    dsimp only
    rw [StackState.set_inactive_eq]
    simp only [StackState.started_eq_true_iff]
    exact (StackState.started_eq_true_iff ((env.get self).stack)).mp hselfstarted
  · rw [GEnv.get_setCurrent, GEnv.get_setArgs_self]
  · rfl
  · intro val h1 h2
    rw [h1, h2]
    exact ⟨rfl, rfl⟩
  · intro e h1 h2
    rw [h1, h2]
    exact ⟨rfl, rfl⟩

/-- Witness for C7: in `testEnvExit`, greenlet 1's entry point ended with
an uncaught `GreenletExit` carrying 42; greenlet 1 dies and the value is
forwarded to its parent (the main greenlet 0) as a normal result. -/
theorem uncaught_exit_forwards_value_witness :
    ∃ env2,
      inner_bootstrap_finish testEnvExit 5 1 Option.none = GSwitchOutcome.pivot 0 env2
      ∧ (env2.get 1).stack.active = false
      ∧ (env2.get 1).stack.started = true
      ∧ (env2.get 0).switch_args
          = { args := (g_handle_exit Option.none testEnvExit.pending_exc).1,
              kwargs := Option.none }
      ∧ env2.pending_exc = (g_handle_exit Option.none testEnvExit.pending_exc).2
      ∧ (∀ val, Option.none = (Option.none : Option PyObj)
          → testEnvExit.pending_exc = some (PyExc.greenletExit val)
          → (g_handle_exit Option.none testEnvExit.pending_exc).1
              = some (val.getD PyObj.noneV)
            ∧ (g_handle_exit Option.none testEnvExit.pending_exc).2 = Option.none)
      ∧ (∀ e, Option.none = (Option.none : Option PyObj)
          → testEnvExit.pending_exc = some (PyExc.otherExc e)
          → (g_handle_exit Option.none testEnvExit.pending_exc).1 = Option.none
            ∧ (g_handle_exit Option.none testEnvExit.pending_exc).2
              = some (PyExc.otherExc e)) :=
  uncaught_exit_forwards_value_to_live_ancestor testEnvExit 3 1 0 Option.none
    rfl rfl (by decide) rfl (by decide) rfl rfl (by decide) rfl

end GreenletSpec
